import Mathlib

/-!
Verification development for the volarix4 backtest subsystem
(`volarix4_backtest`: broker simulator, backtest engine, walk-forward and
grid-search orchestrators, plus the event-driven broker variant in
`tests/backtest_engine`).

Python floats are modelled by exact rationals (`ℚ`), datetimes by a record
of calendar year and an intra-year ordinal, and Python strings by `String`.
Mutation of the Python objects is modelled by explicit state passing: each
mutating method becomes a function returning the updated record.  Where a
method both mutates a `Trade` and implicitly produces one "exit leg" of
accounting (lots closed, gross/net P&L of that fill), the embedded function
also returns that leg as an explicit record, so that conservation laws can
be stated; the `*_full` function is the embedding and the plain function is
its first projection.
-/

attribute [local semireducible] Rat.add Rat.mul Rat.sub Rat.inv Rat.ofScientific

namespace Volarix4

/-- A datetime, abstracted to its calendar year and an intra-year ordinal
(the walk-forward splitter reads only the year; the engine and broker treat
timestamps opaquely). -/
structure DateTime where
  year : Int
  ord : Int
deriving Repr, DecidableEq, Inhabited

/-- One OHLCV bar (`volarix4_backtest/data_source.py`, `class Bar`). -/
structure Bar where
  time : DateTime
  open_ : ℚ
  high : ℚ
  low : ℚ
  close : ℚ
  volume : Int
deriving Repr, DecidableEq, Inhabited

/-- Reason for trade exit (`broker_sim.py`, `class ExitReason`). -/
inductive ExitReason where
  | TP1
  | TP2
  | TP3
  | SL
  | MANUAL
deriving Repr, DecidableEq, Inhabited

/-- A single trade with partial-TP tracking (`broker_sim.py`, `class Trade`).
`remaining_lots` is initialised to `lot_size` by `__post_init__`, which the
constructor function `Broker.open_trade` below reproduces. -/
structure Trade where
  direction : String
  entry_time : DateTime
  entry_price : ℚ
  lot_size : ℚ
  confidence : ℚ
  reason : String
  sl : ℚ
  tp1 : ℚ
  tp2 : ℚ
  tp3 : ℚ
  tp1_percent : ℚ
  tp2_percent : ℚ
  tp3_percent : ℚ
  entry_cost_usd : ℚ
  exit_cost_usd : ℚ
  commission_usd : ℚ
  remaining_lots : ℚ
  closed_lots : ℚ
  exit_time : Option DateTime
  exit_reason : Option ExitReason
  exit_price : Option ℚ
  tp1_hit : Bool
  tp2_hit : Bool
  tp3_hit : Bool
  tp1_exit_time : Option DateTime
  tp2_exit_time : Option DateTime
  tp3_exit_time : Option DateTime
  gross_pnl_usd : ℚ
  net_pnl_usd : ℚ
deriving Repr, DecidableEq, Inhabited

/-- `Trade.is_closed` (`broker_sim.py`): `remaining_lots <= 0.0`. -/
def Trade.is_closed (t : Trade) : Bool :=
  t.remaining_lots ≤ 0

/-- The cost parameters of `class BrokerSimulator` (`broker_sim.py`,
`__init__`): spread, slippage, per-side-per-lot commission, USD per pip per
lot, and the symbol's pip value.  There is no further configuration — in
particular no exit-semantics selector. -/
structure Broker where
  spread_pips : ℚ
  slippage_pips : ℚ
  commission_per_side_per_lot : ℚ
  usd_per_pip_per_lot : ℚ
  pip_value : ℚ
deriving Repr, DecidableEq, Inhabited

/-- One exit leg's accounting, produced by a partial or full close: the lots
closed by that fill and the gross/cost/commission/net P&L booked for it.
The Python code books these amounts by `+=` mutation; the leg record makes
the per-fill amounts available to conservation statements. -/
structure Leg where
  lots : ℚ
  gross : ℚ
  exit_cost : ℚ
  commission : ℚ
  net : ℚ
deriving Repr, DecidableEq, Inhabited

/-- `BrokerSimulator.open_trade` (`broker_sim.py`): entry costs are computed
from spread+slippage, the entry-side commission is stored in
`commission_usd`, and the actual entry price is adjusted by the slippage
(only) against the trader. -/
def Broker.open_trade (B : Broker) (direction : String) (entry_time : DateTime)
    (entry_price lot_size sl tp1 tp2 tp3 tp1_percent tp2_percent tp3_percent
      confidence : ℚ) (reason : String) : Trade :=
  let entry_cost_pips := B.spread_pips + B.slippage_pips
  let entry_cost_usd := entry_cost_pips * lot_size * B.usd_per_pip_per_lot
  let commission_entry := B.commission_per_side_per_lot * lot_size
  let actual_entry :=
    if direction = "BUY" then entry_price + B.slippage_pips * B.pip_value
    else entry_price - B.slippage_pips * B.pip_value
  { direction := direction
    entry_time := entry_time
    entry_price := actual_entry
    lot_size := lot_size
    confidence := confidence
    reason := reason
    sl := sl, tp1 := tp1, tp2 := tp2, tp3 := tp3
    tp1_percent := tp1_percent, tp2_percent := tp2_percent
    tp3_percent := tp3_percent
    entry_cost_usd := entry_cost_usd
    exit_cost_usd := 0
    commission_usd := commission_entry
    remaining_lots := lot_size
    closed_lots := 0
    exit_time := none, exit_reason := none, exit_price := none
    tp1_hit := false, tp2_hit := false, tp3_hit := false
    tp1_exit_time := none, tp2_exit_time := none, tp3_exit_time := none
    gross_pnl_usd := 0
    net_pnl_usd := 0 }

/-- The body shared by the three TP branches of
`BrokerSimulator._partial_close` (`broker_sim.py`), after the hit flag and
exit time for the level have been recorded on `t1` and the raw
`lots_to_close = lot_size * tp_percent` has been computed: clamp to the
remaining lots, bail out on a non-positive amount, otherwise book the fill
(price adjusted by slippage only) and close the trade when nothing remains.
Returns the updated trade and the leg booked (if any). -/
def Broker.partial_close_body (B : Broker) (t1 : Trade) (exit_time : DateTime)
    (exit_price : ℚ) (exit_reason : ExitReason) (lots_raw : ℚ) :
    Trade × Option Leg :=
  let lots_to_close := min lots_raw t1.remaining_lots
  if lots_to_close ≤ 0 then (t1, none)
  else
    let actual_exit :=
      if t1.direction = "BUY" then exit_price - B.slippage_pips * B.pip_value
      else exit_price + B.slippage_pips * B.pip_value
    let pips :=
      if t1.direction = "BUY" then (actual_exit - t1.entry_price) / B.pip_value
      else (t1.entry_price - actual_exit) / B.pip_value
    let gross_pnl := pips * lots_to_close * B.usd_per_pip_per_lot
    let exit_cost_usd := B.slippage_pips * lots_to_close * B.usd_per_pip_per_lot
    let commission_exit := B.commission_per_side_per_lot * lots_to_close
    let net_pnl := gross_pnl - exit_cost_usd - commission_exit
    let t2 : Trade :=
      { t1 with
        remaining_lots := t1.remaining_lots - lots_to_close
        closed_lots := t1.closed_lots + lots_to_close
        gross_pnl_usd := t1.gross_pnl_usd + gross_pnl
        exit_cost_usd := t1.exit_cost_usd + exit_cost_usd
        commission_usd := t1.commission_usd + commission_exit
        net_pnl_usd := t1.net_pnl_usd + net_pnl }
    let t3 : Trade :=
      if t2.remaining_lots ≤ 0 then
        { t2 with
          exit_time := some exit_time
          exit_reason := some exit_reason
          exit_price := some actual_exit
          remaining_lots := 0 }
      else t2
    (t3, some ⟨lots_to_close, gross_pnl, exit_cost_usd, commission_exit, net_pnl⟩)

/-- `BrokerSimulator._partial_close` (`broker_sim.py`).  Note that the
Python code sets the `tpN_hit` flag and exit time *before* the
`lots_to_close` clamp, so the flag is recorded even when zero lots are
closed; the embedding mirrors that ordering. -/
def Broker.partial_close_full (B : Broker) (t : Trade) (exit_time : DateTime)
    (exit_price : ℚ) (exit_reason : ExitReason) : Trade × Option Leg :=
  match exit_reason with
  | .TP1 =>
      B.partial_close_body
        { t with tp1_hit := true, tp1_exit_time := some exit_time }
        exit_time exit_price .TP1 (t.lot_size * t.tp1_percent)
  | .TP2 =>
      B.partial_close_body
        { t with tp2_hit := true, tp2_exit_time := some exit_time }
        exit_time exit_price .TP2 (t.lot_size * t.tp2_percent)
  | .TP3 =>
      B.partial_close_body
        { t with tp3_hit := true, tp3_exit_time := some exit_time }
        exit_time exit_price .TP3 (t.lot_size * t.tp3_percent)
  | _ => (t, none)

def Broker.partial_close (B : Broker) (t : Trade) (exit_time : DateTime)
    (exit_price : ℚ) (exit_reason : ExitReason) : Trade :=
  (B.partial_close_full t exit_time exit_price exit_reason).1

/-- `BrokerSimulator._close_trade` (`broker_sim.py`): close the entire
remaining position (used for SL and the end-of-backtest MANUAL close); the
fill price is the given reference price adjusted by slippage only. -/
def Broker.close_trade_full (B : Broker) (t : Trade) (exit_time : DateTime)
    (exit_price : ℚ) (exit_reason : ExitReason) : Trade × Option Leg :=
  if t.remaining_lots ≤ 0 then (t, none)
  else
    let actual_exit :=
      if t.direction = "BUY" then exit_price - B.slippage_pips * B.pip_value
      else exit_price + B.slippage_pips * B.pip_value
    let pips :=
      if t.direction = "BUY" then (actual_exit - t.entry_price) / B.pip_value
      else (t.entry_price - actual_exit) / B.pip_value
    let gross_pnl := pips * t.remaining_lots * B.usd_per_pip_per_lot
    let exit_cost_usd := B.slippage_pips * t.remaining_lots * B.usd_per_pip_per_lot
    let commission_exit := B.commission_per_side_per_lot * t.remaining_lots
    let net_pnl := gross_pnl - exit_cost_usd - commission_exit
    let t' : Trade :=
      { t with
        closed_lots := t.closed_lots + t.remaining_lots
        remaining_lots := 0
        gross_pnl_usd := t.gross_pnl_usd + gross_pnl
        exit_cost_usd := t.exit_cost_usd + exit_cost_usd
        commission_usd := t.commission_usd + commission_exit
        net_pnl_usd := t.net_pnl_usd + net_pnl
        exit_time := some exit_time
        exit_reason := some exit_reason
        exit_price := some actual_exit }
    (t', some ⟨t.remaining_lots, gross_pnl, exit_cost_usd, commission_exit, net_pnl⟩)

def Broker.close_trade (B : Broker) (t : Trade) (exit_time : DateTime)
    (exit_price : ℚ) (exit_reason : ExitReason) : Trade :=
  (B.close_trade_full t exit_time exit_price exit_reason).1

/-- `BrokerSimulator.update_trade` (`broker_sim.py`): per-bar SL/TP check.
SL is checked first (full close, immediate return), then TP3, TP2, TP1 in
that order; a BUY checks `low <= sl` and `high >= tpN`, a SELL checks
`high >= sl` and `low <= tpN`.  Returns the updated trade, the
`trade_updated` flag, and the exit legs booked on this bar. -/
def Broker.update_trade_full (B : Broker) (t : Trade) (current_time : DateTime)
    (current_high current_low _current_close : ℚ) : Trade × Bool × List Leg :=
  if t.is_closed then (t, false, [])
  else if t.direction = "BUY" then
    if current_low ≤ t.sl then
      let (t', leg) := B.close_trade_full t current_time t.sl .SL
      (t', true, leg.toList)
    else
      let (t1, u1, l1) :=
        if t.tp3_hit = false ∧ current_high ≥ t.tp3 then
          let (t', leg) := B.partial_close_full t current_time t.tp3 .TP3
          (t', true, leg.toList)
        else (t, false, [])
      let (t2, u2, l2) :=
        if t1.tp2_hit = false ∧ current_high ≥ t1.tp2 then
          let (t', leg) := B.partial_close_full t1 current_time t1.tp2 .TP2
          (t', true, leg.toList)
        else (t1, false, [])
      let (t3, u3, l3) :=
        if t2.tp1_hit = false ∧ current_high ≥ t2.tp1 then
          let (t', leg) := B.partial_close_full t2 current_time t2.tp1 .TP1
          (t', true, leg.toList)
        else (t2, false, [])
      (t3, u1 || u2 || u3, l1 ++ l2 ++ l3)
  else
    if current_high ≥ t.sl then
      let (t', leg) := B.close_trade_full t current_time t.sl .SL
      (t', true, leg.toList)
    else
      let (t1, u1, l1) :=
        if t.tp3_hit = false ∧ current_low ≤ t.tp3 then
          let (t', leg) := B.partial_close_full t current_time t.tp3 .TP3
          (t', true, leg.toList)
        else (t, false, [])
      let (t2, u2, l2) :=
        if t1.tp2_hit = false ∧ current_low ≤ t1.tp2 then
          let (t', leg) := B.partial_close_full t1 current_time t1.tp2 .TP2
          (t', true, leg.toList)
        else (t1, false, [])
      let (t3, u3, l3) :=
        if t2.tp1_hit = false ∧ current_low ≤ t2.tp1 then
          let (t', leg) := B.partial_close_full t2 current_time t2.tp1 .TP1
          (t', true, leg.toList)
        else (t2, false, [])
      (t3, u1 || u2 || u3, l1 ++ l2 ++ l3)

def Broker.update_trade (B : Broker) (t : Trade) (current_time : DateTime)
    (current_high current_low current_close : ℚ) : Trade × Bool :=
  let (t', u, _) := B.update_trade_full t current_time current_high current_low current_close
  (t', u)

/-- Iterate `update_trade` over a list of bars (the broker's view of the
engine's per-bar update loop), collecting every exit leg booked along the
way. -/
def Broker.run_bars (B : Broker) (t : Trade) : List Bar → Trade × List Leg
  | [] => (t, [])
  | b :: bs =>
    let (t', _, legs) := B.update_trade_full t b.time b.high b.low b.close
    let (tf, rest) := B.run_bars t' bs
    (tf, legs ++ rest)

/-- Verification predicate: one (or several chained) broker operations
carried trade `a` to trade `b`, booking the exit legs `ls`.  It packages
the conservation facts of `_partial_close`/`_close_trade`: `lot_size` is
untouched, the booked lots move one-for-one from `remaining_lots` to
`closed_lots`, the booked leg nets accumulate into `net_pnl_usd`, the
booked lots are nonnegative and (when the position size was nonnegative)
bounded by it, and every leg's net is its gross minus its slippage exit
cost and its per-lot exit commission. -/
def LegAccounting (B : Broker) (a b : Trade) (ls : List Leg) : Prop :=
  b.lot_size = a.lot_size ∧
  b.closed_lots = a.closed_lots + (ls.map Leg.lots).sum ∧
  b.net_pnl_usd = a.net_pnl_usd + (ls.map Leg.net).sum ∧
  b.remaining_lots = a.remaining_lots - (ls.map Leg.lots).sum ∧
  0 ≤ (ls.map Leg.lots).sum ∧
  (0 ≤ a.remaining_lots → (ls.map Leg.lots).sum ≤ a.remaining_lots) ∧
  ∀ L ∈ ls, L.net = L.gross - B.slippage_pips * L.lots * B.usd_per_pip_per_lot -
    B.commission_per_side_per_lot * L.lots

/-- `api_client.SignalResponse`: the fields of the API's reply that the
engine reads. -/
structure SignalResp where
  signal : String
  confidence : ℚ
  entry : ℚ
  sl : ℚ
  tp1 : ℚ
  tp2 : ℚ
  tp3 : ℚ
  tp1_percent : ℚ
  tp2_percent : ℚ
  tp3_percent : ℚ
  reason : String
deriving Repr, DecidableEq, Inhabited

/-- The parameter bundle the engine forwards to the API on every signal
request (`engine.py`, `_get_signal`). -/
structure Params where
  min_confidence : Option ℚ
  broken_level_cooldown_hours : Option ℚ
  broken_level_break_pips : Option ℚ
  min_edge_pips : Option ℚ
  spread_pips : ℚ
  slippage_pips : ℚ
  commission_per_side_per_lot : ℚ
  usd_per_pip_per_lot : ℚ
  lot_size : ℚ
deriving Repr, DecidableEq, Inhabited

/-- The Signal Oracle (`api_client.SignalApiClient`), an external
collaborator: a pure function in each of its two request modes.  In
optimized mode only the decision bar's timestamp is transmitted; in legacy
mode the engine transmits the bar window itself. -/
structure Api where
  get_signal_optimized : String → String → DateTime → ℕ → Params → SignalResp
  get_signal_legacy : String → String → List Bar → Params → SignalResp

/-- The fields of `config.BacktestConfig` that the engine, walk-forward and
grid-search code paths read. -/
structure Config where
  symbol : String
  timeframe : String
  test_years : Option (List Int)
  train_years_lookback : Int
  use_optimized_mode : Bool
  lookback_bars : ℕ
  min_confidence : Option ℚ
  broken_level_cooldown_hours : Option ℚ
  broken_level_break_pips : Option ℚ
  min_edge_pips : Option ℚ
  spread_pips : ℚ
  slippage_pips : ℚ
  commission_per_side_per_lot : ℚ
  usd_per_pip_per_lot : ℚ
  lot_size : ℚ
  initial_balance_usd : ℚ
  fill_at : String
  warmup_bars : ℕ
deriving Repr, DecidableEq, Inhabited

def Config.params (c : Config) : Params :=
  { min_confidence := c.min_confidence
    broken_level_cooldown_hours := c.broken_level_cooldown_hours
    broken_level_break_pips := c.broken_level_break_pips
    min_edge_pips := c.min_edge_pips
    spread_pips := c.spread_pips
    slippage_pips := c.slippage_pips
    commission_per_side_per_lot := c.commission_per_side_per_lot
    usd_per_pip_per_lot := c.usd_per_pip_per_lot
    lot_size := c.lot_size }

/-- The bar window sent in legacy mode (`engine.py`, `_get_signal`):
`bars[max(0, bar_index - lookback_bars + 1) : bar_index + 1]`.  In ℕ the
Python `max(0, i - lookback + 1)` is the truncated subtraction
`i + 1 - lookback`. -/
def signal_window (bars : List Bar) (lookback_bars i : ℕ) : List Bar :=
  (bars.take (i + 1)).drop (i + 1 - lookback_bars)

/-- `BacktestEngine._get_signal` (`engine.py`): in optimized mode the API is
sent the decision bar's timestamp; in legacy mode it is sent the trailing
window ending at the decision bar. -/
def get_signal (cfg : Config) (api : Api) (bars : List Bar) (i : ℕ) : SignalResp :=
  if cfg.use_optimized_mode then
    api.get_signal_optimized cfg.symbol cfg.timeframe (bars[i]!).time
      cfg.lookback_bars cfg.params
  else
    api.get_signal_legacy cfg.symbol cfg.timeframe
      (signal_window bars cfg.lookback_bars i) cfg.params

/-- One point of the equity curve (`engine.py`, `_record_equity`). -/
structure EquityPoint where
  time : DateTime
  balance : ℚ
  unrealized_pnl : ℚ
  equity : ℚ
deriving Repr, DecidableEq, Inhabited

/-- The engine's mutable state (`engine.py`, `BacktestEngine.__init__`):
the open trade, account balance, closed-trade history, equity curve and the
signal counters. -/
structure EngState where
  open_trade : Option Trade
  balance : ℚ
  trades : List Trade
  equity_curve : List EquityPoint
  total_signals : ℕ
  buy_signals : ℕ
  sell_signals : ℕ
  hold_signals : ℕ
deriving Repr, DecidableEq, Inhabited

def init_state (cfg : Config) : EngState :=
  ⟨none, cfg.initial_balance_usd, [], [], 0, 0, 0, 0⟩

/-- `BacktestEngine._finalize_trade`: add the closed trade's net P&L to the
balance and append it to the history. -/
def finalize_trade (st : EngState) (t : Trade) : EngState :=
  { st with balance := st.balance + t.net_pnl_usd, trades := st.trades ++ [t] }

/-- `BacktestEngine._update_open_position`: update the open trade with the
current bar via the broker; if it is now fully closed, finalize it and
clear the slot. -/
def update_open_position (B : Broker) (st : EngState) (bar : Bar) : EngState :=
  match st.open_trade with
  | none => st
  | some t =>
    if t.is_closed then st
    else
      let t' := (B.update_trade t bar.time bar.high bar.low bar.close).1
      if t'.is_closed then { finalize_trade st t' with open_trade := none }
      else { st with open_trade := some t' }

/-- `BacktestEngine._open_position`: under `fill_at = "next_open"` the trade
fills at the next bar's open — and is silently skipped when no next bar
exists; under `"signal_close"` it fills at the signal bar's close. -/
def open_position (cfg : Config) (B : Broker) (bars : List Bar)
    (sig : SignalResp) (i : ℕ) (st : EngState) : EngState :=
  let fill : Option (Bar × ℚ) :=
    if cfg.fill_at = "next_open" then
      if i + 1 ≥ bars.length then none
      else some (bars[i + 1]!, (bars[i + 1]!).open_)
    else some (bars[i]!, (bars[i]!).close)
  match fill with
  | none => st
  | some (entry_bar, entry_price) =>
    { st with
      open_trade := some (B.open_trade sig.signal entry_bar.time entry_price
        cfg.lot_size sig.sl sig.tp1 sig.tp2 sig.tp3 sig.tp1_percent
        sig.tp2_percent sig.tp3_percent sig.confidence sig.reason) }

/-- `BacktestEngine._record_equity`: append one equity point;
`unrealized_pnl` is the open trade's current net P&L (0 when no trade is
open or the slot holds a closed trade), and `equity = balance + unrealized`. -/
def record_equity (st : EngState) (time : DateTime) : EngState :=
  let unrealized_pnl : ℚ :=
    match st.open_trade with
    | some t => if t.is_closed then 0 else t.net_pnl_usd
    | none => 0
  { st with
    equity_curve := st.equity_curve ++
      [⟨time, st.balance, unrealized_pnl, st.balance + unrealized_pnl⟩] }

/-- One iteration of the backtest loop (`engine.py`, `run`, body of
`for i in range(warmup_bars, len(bars))`): update the open position first,
then — only when no position is open — request a signal and possibly open a
position, and finally record one equity point for the bar. -/
def step_bar (cfg : Config) (B : Broker) (api : Api) (bars : List Bar)
    (st : EngState) (i : ℕ) : EngState :=
  let bar := bars[i]!
  let st1 := update_open_position B st bar
  let st2 :=
    match st1.open_trade with
    | some _ => st1
    | none =>
      let sig := get_signal cfg api bars i
      let st' := { st1 with total_signals := st1.total_signals + 1 }
      if sig.signal = "BUY" then
        open_position cfg B bars sig i { st' with buy_signals := st'.buy_signals + 1 }
      else if sig.signal = "SELL" then
        open_position cfg B bars sig i { st' with sell_signals := st'.sell_signals + 1 }
      else { st' with hold_signals := st'.hold_signals + 1 }
  record_equity st2 bar.time

/-- The backtest loop over bar indices `warmup_bars, …, len(bars) - 1`. -/
def run_loop (cfg : Config) (B : Broker) (api : Api) (bars : List Bar) : EngState :=
  (List.range (bars.length - cfg.warmup_bars)).foldl
    (fun st k => step_bar cfg B api bars st (cfg.warmup_bars + k))
    (init_state cfg)

/-- End of `BacktestEngine.run`: force-close any remaining open position at
the last bar's close with reason MANUAL and finalize it. -/
def close_remaining (B : Broker) (bars : List Bar) (st : EngState) : EngState :=
  match st.open_trade with
  | none => st
  | some t =>
    let last_bar := bars[bars.length - 1]!
    let t' := B.close_trade t last_bar.time last_bar.close .MANUAL
    { finalize_trade st t' with open_trade := some t' }

/-- Python's built-in `abs`, written so that it evaluates by kernel
reduction (equal to `|x|`, see `rat_abs_eq_abs`). -/
def rat_abs (x : ℚ) : ℚ := if x < 0 then -x else x

/-- The scalar results record built by `BacktestEngine._compute_results`.
`profit_factor` lives in `WithTop ℚ`, whose `⊤` models Python's
`float('inf')`. -/
structure EngineResult where
  trades : List Trade
  equity_curve : List EquityPoint
  total_trades : ℕ
  total_signals : ℕ
  buy_signals : ℕ
  sell_signals : ℕ
  hold_signals : ℕ
  winning_trades : ℕ
  losing_trades : ℕ
  net_profit_usd : ℚ
  gross_profit_usd : ℚ
  gross_loss_usd : ℚ
  win_rate : ℚ
  profit_factor : WithTop ℚ
  max_drawdown_usd : ℚ
  max_drawdown_pct : ℚ
  final_balance : ℚ
  return_pct : ℚ
deriving Repr, DecidableEq, Inhabited

/-- The running-peak drawdown scan of `_compute_results` over the equity
curve: state is `(peak, max_dd, max_dd_pct)`. -/
def drawdown_scan (initial_peak : ℚ) (curve : List EquityPoint) : ℚ × ℚ × ℚ :=
  curve.foldl
    (fun acc point =>
      let (peak, max_dd, max_dd_pct) := acc
      let equity := point.equity
      let peak := if equity > peak then equity else peak
      let dd := peak - equity
      if dd > max_dd then (peak, dd, if peak > 0 then dd / peak * 100 else 0)
      else (peak, max_dd, max_dd_pct))
    (initial_peak, 0, 0)

/-- `BacktestEngine._compute_results` (`engine.py`): the empty-trade-list
branch returns all-zero metrics (profit factor 0); otherwise winners are the
trades with net P&L `> 0`, losers those `< 0`, and
`profit_factor = gross_profit / gross_loss` when `gross_loss > 0`, else
`float('inf')`. -/
def compute_results (cfg : Config) (st : EngState) : EngineResult :=
  if st.trades = [] then
    { trades := []
      equity_curve := st.equity_curve
      total_trades := 0
      total_signals := st.total_signals
      buy_signals := st.buy_signals
      sell_signals := st.sell_signals
      hold_signals := st.hold_signals
      winning_trades := 0
      losing_trades := 0
      net_profit_usd := 0
      gross_profit_usd := 0
      gross_loss_usd := 0
      win_rate := 0
      profit_factor := (0 : ℚ)
      max_drawdown_usd := 0
      max_drawdown_pct := 0
      final_balance := st.balance
      return_pct := 0 }
  else
    let total_trades := st.trades.length
    let winning_trades := st.trades.filter (fun t => t.net_pnl_usd > 0)
    let losing_trades := st.trades.filter (fun t => t.net_pnl_usd < 0)
    let gross_profit := (winning_trades.map (fun t => t.net_pnl_usd)).sum
    let gross_loss := rat_abs (losing_trades.map (fun t => t.net_pnl_usd)).sum
    let net_profit := gross_profit - gross_loss
    let win_rate : ℚ :=
      if total_trades > 0 then (winning_trades.length : ℚ) / (total_trades : ℚ) else 0
    let profit_factor : WithTop ℚ :=
      if gross_loss > 0 then ((gross_profit / gross_loss : ℚ) : WithTop ℚ) else ⊤
    let (_, max_dd, max_dd_pct) := drawdown_scan cfg.initial_balance_usd st.equity_curve
    { trades := st.trades
      equity_curve := st.equity_curve
      total_trades := total_trades
      total_signals := st.total_signals
      buy_signals := st.buy_signals
      sell_signals := st.sell_signals
      hold_signals := st.hold_signals
      winning_trades := winning_trades.length
      losing_trades := losing_trades.length
      net_profit_usd := net_profit
      gross_profit_usd := gross_profit
      gross_loss_usd := gross_loss
      win_rate := win_rate
      profit_factor := profit_factor
      max_drawdown_usd := max_dd
      max_drawdown_pct := max_dd_pct
      final_balance := st.balance
      return_pct := (st.balance - cfg.initial_balance_usd) / cfg.initial_balance_usd * 100 }

/-- `BacktestEngine.run` (`engine.py`): raise (here: `none`) when fewer bars
than `warmup_bars` are loaded; otherwise run the loop, force-close any
remaining position, and compute the results. -/
def engine_run (cfg : Config) (B : Broker) (api : Api) (bars : List Bar) :
    Option (EngState × EngineResult) :=
  if bars.length < cfg.warmup_bars then none
  else
    let st := close_remaining B bars (run_loop cfg B api bars)
    some (st, compute_results cfg st)

/-!  Walk-forward (`walk_forward.py`) and grid search (`grid_search.py`). -/

/-- Metric values as compared by the grid-search sort: rationals extended
with `⊤` (Python `float('inf')`, the zero-gross-loss profit factor) and `⊥`
(Python `float('-inf')`, the sort's default for a missing key). -/
abbrev EV := WithBot (WithTop ℚ)

def EV.ofQ (q : ℚ) : EV := ((q : WithTop ℚ) : WithBot (WithTop ℚ))

def EV.inf : EV := ((⊤ : WithTop ℚ) : WithBot (WithTop ℚ))

/-- A metrics dictionary (`wf_results["aggregate"]`), keyed by the metric
name, holding only the numeric values the grid-search sort can read. -/
abbrev Metrics := List (String × EV)

/-- `result["metrics"].get(objective, float('-inf'))` from
`GridSearchEngine._sort_results`. -/
def metrics_get (m : Metrics) (key : String) : EV :=
  ((m.find? (fun kv => kv.1 = key)).map (fun kv => kv.2)).getD ⊥

/-- The train-window filter of `WalkForwardEngine._split_data_by_year`:
bars whose year lies in `[train_start_year, train_end_year]`. -/
def train_filter (bars : List Bar) (train_start_year train_end_year : Int) : List Bar :=
  bars.filter (fun b => train_start_year ≤ b.time.year ∧ b.time.year ≤ train_end_year)

/-- The test-window filter of `WalkForwardEngine._split_data_by_year`:
bars of the test year. -/
def test_filter (bars : List Bar) (test_year : Int) : List Bar :=
  bars.filter (fun b => b.time.year = test_year)

/-- `WalkForwardEngine._compute_aggregate_results` (`walk_forward.py`),
restricted to the numeric entries: the no-years branch returns a zero
dictionary that *does* carry `profit_factor = 0`; the
`total_trades == 0` branch returns a short dictionary *without* a
`profit_factor` key; otherwise winners/losers are classified by the sign of
net P&L and `profit_factor` is `gross/loss` or `inf` as in the engine. -/
def compute_aggregate_results (cfg : Config) (rby : List (Int × EngineResult)) : Metrics :=
  if rby = [] then
    [("total_trades", EV.ofQ 0), ("total_years", EV.ofQ 0),
     ("avg_trades_per_year", EV.ofQ 0), ("winning_trades", EV.ofQ 0),
     ("losing_trades", EV.ofQ 0), ("win_rate", EV.ofQ 0),
     ("aggregate_net_profit", EV.ofQ 0), ("aggregate_gross_profit", EV.ofQ 0),
     ("aggregate_gross_loss", EV.ofQ 0), ("profit_factor", EV.ofQ 0),
     ("aggregate_return_pct", EV.ofQ 0), ("avg_net_profit_per_year", EV.ofQ 0)]
  else
    let all_trades := (rby.map (fun yr => yr.2.trades)).flatten
    let total_trades := all_trades.length
    if total_trades = 0 then
      [("total_trades", EV.ofQ 0), ("total_years", EV.ofQ (rby.length : ℚ)),
       ("avg_trades_per_year", EV.ofQ 0), ("aggregate_net_profit", EV.ofQ 0),
       ("aggregate_return_pct", EV.ofQ 0)]
    else
      let winning_trades := all_trades.filter (fun t => t.net_pnl_usd > 0)
      let losing_trades := all_trades.filter (fun t => t.net_pnl_usd < 0)
      let gross_profit := (winning_trades.map (fun t => t.net_pnl_usd)).sum
      let gross_loss := rat_abs (losing_trades.map (fun t => t.net_pnl_usd)).sum
      let net_profit := gross_profit - gross_loss
      let win_rate : ℚ := (winning_trades.length : ℚ) / (total_trades : ℚ)
      let profit_factor : EV :=
        if gross_loss > 0 then EV.ofQ (gross_profit / gross_loss) else EV.inf
      [("total_trades", EV.ofQ (total_trades : ℚ)),
       ("total_years", EV.ofQ (rby.length : ℚ)),
       ("avg_trades_per_year", EV.ofQ ((total_trades : ℚ) / (rby.length : ℚ))),
       ("winning_trades", EV.ofQ (winning_trades.length : ℚ)),
       ("losing_trades", EV.ofQ (losing_trades.length : ℚ)),
       ("win_rate", EV.ofQ win_rate),
       ("aggregate_net_profit", EV.ofQ net_profit),
       ("aggregate_gross_profit", EV.ofQ gross_profit),
       ("aggregate_gross_loss", EV.ofQ gross_loss),
       ("profit_factor", profit_factor),
       ("aggregate_return_pct", EV.ofQ (net_profit / cfg.initial_balance_usd * 100)),
       ("avg_net_profit_per_year", EV.ofQ (net_profit / (rby.length : ℚ)))]

/-- The per-test-year loop of `WalkForwardEngine.run` (`walk_forward.py`):
for each test year, split off the train window (`test_year - lookback` to
`test_year - 1`) and the test window; skip the year when either window is
empty; otherwise run the Backtest Engine **on the test window** with the
current configuration.  (The code performs no training runs: its own
comment reads "For now, we just test on test_bars using current config
params.")  An engine failure (insufficient bars) propagates as `none`,
matching the uncaught exception. -/
def walk_years (cfg : Config) (B : Broker) (api : Api) (bars : List Bar) :
    List Int → Option (List (Int × EngineResult))
  | [] => some []
  | test_year :: rest =>
    let train_start_year := test_year - cfg.train_years_lookback
    let train_end_year := test_year - 1
    let train_bars := train_filter bars train_start_year train_end_year
    let test_bars := test_filter bars test_year
    if train_bars = [] then walk_years cfg B api bars rest
    else if test_bars = [] then walk_years cfg B api bars rest
    else
      match engine_run cfg B api test_bars with
      | none => none
      | some (_, result) =>
        (walk_years cfg B api bars rest).map (fun tail => (test_year, result) :: tail)

/-- `WalkForwardEngine.run`: requires year-based config (`test_years` set);
returns the per-year results and the aggregate metrics. -/
def walk_forward_run (cfg : Config) (B : Broker) (api : Api) (bars : List Bar) :
    Option (List (Int × EngineResult) × Metrics) :=
  match cfg.test_years with
  | none => none
  | some years =>
    (walk_years cfg B api bars years).map
      (fun rby => (rby, compute_aggregate_results cfg rby))

/-- A grid-search parameter combination: a parameter-name/value dictionary
(`grid_search.py`, `_generate_combinations`). -/
abbrev ParamCombo := List (String × ℚ)

/-- `GridSearchEngine._merge_config`: override the base configuration's
fields with the combination's values (the strategy-filter and cost fields
that the shipped grids range over). -/
def apply_param (c : Config) (kv : String × ℚ) : Config :=
  if kv.1 = "min_confidence" then { c with min_confidence := some kv.2 }
  else if kv.1 = "broken_level_cooldown_hours" then
    { c with broken_level_cooldown_hours := some kv.2 }
  else if kv.1 = "broken_level_break_pips" then
    { c with broken_level_break_pips := some kv.2 }
  else if kv.1 = "min_edge_pips" then { c with min_edge_pips := some kv.2 }
  else if kv.1 = "spread_pips" then { c with spread_pips := kv.2 }
  else if kv.1 = "slippage_pips" then { c with slippage_pips := kv.2 }
  else c

def merge_config (cfg : Config) (p : ParamCombo) : Config :=
  p.foldl apply_param cfg

/-- `"JPY" in symbol` over the string's character list. -/
def has_jpy : List Char → Bool
  | [] => false
  | c :: rest =>
    (match c :: rest with
     | 'J' :: 'P' :: 'Y' :: _ => true
     | _ => false) || has_jpy rest

/-- One grid-search evaluation record (`grid_search.py`,
`_evaluate_combination`'s return value). -/
structure GridResult where
  params : ParamCombo
  metrics : Metrics
  by_year : List (Int × EngineResult)
deriving Repr, DecidableEq, Inhabited

/-- `GridSearchEngine._evaluate_combination`: merge the combination into the
config, build a fresh broker from the merged cost parameters (pip value
0.01 for JPY symbols, else 0.0001), run the walk-forward, and return its
aggregate metrics; any failure is swallowed to `none`. -/
def evaluate_combination (cfg : Config) (api : Api) (bars : List Bar)
    (p : ParamCombo) : Option GridResult :=
  let merged := merge_config cfg p
  let pip_value : ℚ := if has_jpy merged.symbol.data then 1 / 100 else 1 / 10000
  let B : Broker :=
    ⟨merged.spread_pips, merged.slippage_pips, merged.commission_per_side_per_lot,
      merged.usd_per_pip_per_lot, pip_value⟩
  match walk_forward_run merged B api bars with
  | none => none
  | some (rby, agg) => some ⟨p, agg, rby⟩

/-- Stable insertion into a descending-sorted list: the new element goes
after every earlier element whose key is at least as large.  Together with
`sort_desc` this models Python's stable `sorted(..., key=..., reverse=True)`
in `GridSearchEngine._sort_results`. -/
def insert_desc (key : GridResult → EV) (x : GridResult) : List GridResult → List GridResult
  | [] => [x]
  | y :: ys => if key y > key x then y :: insert_desc key x ys else x :: y :: ys

/-- Stable insertion sort, descending by `key`. -/
def sort_desc_aux (key : GridResult → EV) : List GridResult → List GridResult
  | [] => []
  | x :: xs => insert_desc key x (sort_desc_aux key xs)

/-- `GridSearchEngine._sort_results`: sort descending by
`metrics.get(objective, -inf)`, stably. -/
def sort_results (objective : String) (results : List GridResult) : List GridResult :=
  sort_desc_aux (fun r => metrics_get r.metrics objective) results

/-- The sequential grid search (`GridSearchEngine.run` with
`_run_sequential`): evaluate every combination, drop failures, sort by the
objective, and report the sorted list and its head as the best result. -/
def grid_search_run (cfg : Config) (api : Api) (bars : List Bar)
    (combos : List ParamCombo) (objective : String) :
    Option GridResult × List GridResult :=
  let results := combos.filterMap (evaluate_combination cfg api bars)
  let sorted := sort_results objective results
  (sorted.head?, sorted)

/-!
The event-driven broker variant (`tests/backtest_engine/broker.py` with the
legacy `Trade` of `tests/backtest.py`), which is where the configurable
exit-semantics policy (`ExitSemantics.OPEN_ONLY` conservative vs
`ExitSemantics.OHLC_INTRABAR` optimistic) lives.
-/

namespace EventEngine

/-- `config.ExitSemantics` (`tests/backtest_engine/config.py`). -/
inductive ExitSemantics where
  | OPEN_ONLY
  | OHLC_INTRABAR
deriving Repr, DecidableEq, Inhabited

/-- `config.TPModel` (`tests/backtest_engine/config.py`). -/
inductive TPModel where
  | FULL_CLOSE_AT_FIRST_TP
  | PARTIAL_TPS
deriving Repr, DecidableEq, Inhabited

/-- `config.get_tp_allocations`: TP-level → fraction of the position closed
there (a Python dict with keys 1, 2, 3; other keys never occur). -/
def get_tp_allocations (m : TPModel) : ℕ → ℚ :=
  match m with
  | .FULL_CLOSE_AT_FIRST_TP => fun _ => 1
  | .PARTIAL_TPS => fun level =>
      if level = 1 then 1 / 2 else if level = 2 then 3 / 10
      else if level = 3 then 1 / 5 else 0

/-- The legacy `Trade` of `tests/backtest.py` (the fields the event-driven
broker reads and writes).  Its constructor applies half-spread plus slippage
to the entry price, see `Trade.make`. -/
structure Trade where
  entry_time : DateTime
  entry_bar_time : DateTime
  direction : String
  entry_raw : ℚ
  entry : ℚ
  sl : ℚ
  tp1 : ℚ
  tp2 : ℚ
  tp3 : ℚ
  status : String
  exit_time : Option DateTime
  exit_bar_time : Option DateTime
  exit_price : Option ℚ
  pnl : ℚ
  pnl_pips : ℚ
  pnl_after_costs : ℚ
  exit_reason : String
  pip_value : ℚ
  spread_pips : ℚ
  slippage_pips : ℚ
  commission_per_side_per_lot : ℚ
  lot_size : ℚ
  entry_commission : ℚ
deriving Repr, DecidableEq, Inhabited

/-- `Trade.__init__` (`tests/backtest.py`): entry pays half-spread plus
slippage against the trader, and one entry-side commission is recorded. -/
def Trade.make (entry_time : DateTime) (direction : String)
    (entry sl tp1 tp2 tp3 pip_value spread_pips slippage_pips
      commission_per_side_per_lot lot_size : ℚ) : Trade :=
  let entry_after :=
    if direction = "BUY" then entry + (spread_pips / 2 + slippage_pips) * pip_value
    else entry - (spread_pips / 2 + slippage_pips) * pip_value
  { entry_time := entry_time
    entry_bar_time := entry_time
    direction := direction
    entry_raw := entry
    entry := entry_after
    sl := sl, tp1 := tp1, tp2 := tp2, tp3 := tp3
    status := "open"
    exit_time := none, exit_bar_time := none, exit_price := none
    pnl := 0, pnl_pips := 0, pnl_after_costs := 0
    exit_reason := ""
    pip_value := pip_value
    spread_pips := spread_pips
    slippage_pips := slippage_pips
    commission_per_side_per_lot := commission_per_side_per_lot
    lot_size := lot_size
    entry_commission := commission_per_side_per_lot * lot_size }

/-- `apply_exit_costs` (`tests/backtest.py`): the exit fill pays half-spread
plus slippage against the trader. -/
def apply_exit_costs (t : Trade) (exit_price : ℚ) : ℚ :=
  if t.direction = "BUY" then
    exit_price - (t.spread_pips / 2 + t.slippage_pips) * t.pip_value
  else
    exit_price + (t.spread_pips / 2 + t.slippage_pips) * t.pip_value

/-- `commission_usd_to_pips` (`tests/backtest.py`). -/
def commission_usd_to_pips (commission_usd usd_per_pip_per_lot : ℚ) : ℚ :=
  if usd_per_pip_per_lot = 0 then 0 else commission_usd / usd_per_pip_per_lot

/-- `broker.Position` (`tests/backtest_engine/broker.py`). -/
structure Position where
  position_id : ℕ
  trade : Trade
  remaining_volume : ℚ
  tp_levels_hit : List ℕ
deriving Repr, DecidableEq, Inhabited

/-- `Position.is_fully_closed`. -/
def Position.is_fully_closed (p : Position) : Bool :=
  p.remaining_volume ≤ 0 || p.tp_levels_hit.length ≥ 3

/-- A tick (`tests/backtest_engine/tick_generator.py`): timestamp, bid/ask,
and the source bar's data (`bar_data` dict, flattened to the high/low the
broker reads). -/
structure Tick where
  timestamp : DateTime
  bid : ℚ
  ask : ℚ
  bar_high : ℚ
  bar_low : ℚ
  bar_index : ℕ
  is_bar_open : Bool
deriving Repr, DecidableEq, Inhabited

/-- The configuration of `broker.BacktestBroker` that its SL/TP check
reads: the exit-semantics policy, the TP model (fixing `TP_ALLOCATIONS`),
and the USD-per-pip conversion used for commissions. -/
structure BacktestBroker where
  exit_semantics : ExitSemantics
  tp_model : TPModel
  usd_per_pip_per_lot : ℚ
deriving Repr, DecidableEq, Inhabited

/-- `BacktestBroker._close_position_sl`. -/
def BacktestBroker.close_position_sl (Bk : BacktestBroker) (pos : Position)
    (tick : Tick) (price : ℚ) : Position :=
  let t := pos.trade
  let exit_price_after_costs := apply_exit_costs t price
  let pnl_pips :=
    if t.direction = "BUY" then (exit_price_after_costs - t.entry) / t.pip_value
    else (t.entry - exit_price_after_costs) / t.pip_value
  let r_pips :=
    if t.direction = "BUY" then (t.entry - t.sl) / t.pip_value
    else (t.sl - t.entry) / t.pip_value
  let pnl := if r_pips > 0 then pnl_pips / r_pips else 0
  let exit_commission_usd := t.commission_per_side_per_lot * t.lot_size
  let total_commission_usd := t.entry_commission + exit_commission_usd
  let total_commission_pips :=
    commission_usd_to_pips total_commission_usd Bk.usd_per_pip_per_lot
  let t' : Trade :=
    { t with
      status := "loss"
      exit_time := some tick.timestamp
      exit_bar_time := some tick.timestamp
      exit_price := some exit_price_after_costs
      pnl_pips := pnl_pips
      pnl := pnl
      pnl_after_costs := pnl_pips - total_commission_pips
      exit_reason := "SL hit" }
  { pos with trade := t', remaining_volume := 0 }

/-- `BacktestBroker._calculate_weighted_pnl`. -/
def BacktestBroker.calculate_weighted_pnl (Bk : BacktestBroker) (pos : Position)
    (_tick : Tick) : Trade :=
  let t := pos.trade
  let highest_tp := pos.tp_levels_hit.foldl max 0
  let exit_price_after_costs :=
    if highest_tp = 1 then apply_exit_costs t t.tp1
    else if highest_tp = 2 then apply_exit_costs t t.tp2
    else apply_exit_costs t t.tp3
  let r_pips :=
    if t.direction = "BUY" then (t.entry - t.sl) / t.pip_value
    else (t.sl - t.entry) / t.pip_value
  let tp1_pips :=
    if t.direction = "BUY" then (t.tp1 - t.entry) / t.pip_value
    else (t.entry - t.tp1) / t.pip_value
  let tp2_pips :=
    if t.direction = "BUY" then (t.tp2 - t.entry) / t.pip_value
    else (t.entry - t.tp2) / t.pip_value
  let tp3_pips :=
    if t.direction = "BUY" then (t.tp3 - t.entry) / t.pip_value
    else (t.entry - t.tp3) / t.pip_value
  let (weighted_pips, num_exits, reason) :=
    if highest_tp = 3 then
      ((1 / 2 : ℚ) * tp1_pips + (3 / 10) * tp2_pips + (1 / 5) * tp3_pips, (3 : ℚ),
        "All TPs hit")
    else if highest_tp = 2 then
      ((1 / 2 : ℚ) * tp1_pips + (3 / 10) * tp2_pips, 2, "TP1 + TP2 hit")
    else ((1 / 2 : ℚ) * tp1_pips, 1, "TP1 hit")
  let exit_commission_usd := num_exits * t.commission_per_side_per_lot * t.lot_size
  let total_commission_usd := t.entry_commission + exit_commission_usd
  let total_commission_pips :=
    commission_usd_to_pips total_commission_usd Bk.usd_per_pip_per_lot
  { t with
    exit_price := some exit_price_after_costs
    pnl_pips := weighted_pips
    pnl := if r_pips > 0 then weighted_pips / r_pips else 0
    pnl_after_costs := weighted_pips - total_commission_pips
    exit_reason := reason }

/-- `BacktestBroker._close_partial_tp`: record the hit level, reduce the
remaining volume by that level's allocation, and finalize the weighted P&L
when the position is now fully closed. -/
def BacktestBroker.close_partial_tp (Bk : BacktestBroker) (pos : Position)
    (tick : Tick) (tp_level : ℕ) (_tp_price : ℚ) : Position :=
  let pos1 : Position :=
    { pos with
      tp_levels_hit := pos.tp_levels_hit ++ [tp_level]
      remaining_volume := pos.remaining_volume - get_tp_allocations Bk.tp_model tp_level }
  if pos1.is_fully_closed then
    let t := pos1.trade
    let t1 : Trade :=
      { t with
        status := "win"
        exit_time := some tick.timestamp
        exit_bar_time := some tick.timestamp }
    let pos2 := { pos1 with trade := t1 }
    { pos2 with trade := Bk.calculate_weighted_pnl pos2 tick }
  else pos1

/-- `BacktestBroker._check_sl_tp_on_tick` (`tests/backtest_engine/broker.py`):
under `OPEN_ONLY` only the tick's bid/ask (the bar's open price) is
examined; under `OHLC_INTRABAR` the bar's high/low range is examined.  In
both policies the SL check comes first, then TP3/TP2/TP1 in an `elif`
chain.  Returns the `True`-if-state-changed flag and the updated position. -/
def BacktestBroker.check_sl_tp_on_tick (Bk : BacktestBroker) (pos : Position)
    (tick : Tick) : Bool × Position :=
  let t := pos.trade
  match Bk.exit_semantics with
  | .OPEN_ONLY =>
    let price := if t.direction = "BUY" then tick.bid else tick.ask
    if t.direction = "BUY" then
      if price ≤ t.sl then (true, Bk.close_position_sl pos tick price)
      else if price ≥ t.tp3 ∧ ¬ (3 ∈ pos.tp_levels_hit) then
        (true, Bk.close_partial_tp pos tick 3 t.tp3)
      else if price ≥ t.tp2 ∧ ¬ (2 ∈ pos.tp_levels_hit) then
        (true, Bk.close_partial_tp pos tick 2 t.tp2)
      else if price ≥ t.tp1 ∧ ¬ (1 ∈ pos.tp_levels_hit) then
        (true, Bk.close_partial_tp pos tick 1 t.tp1)
      else (false, pos)
    else
      if price ≥ t.sl then (true, Bk.close_position_sl pos tick price)
      else if price ≤ t.tp3 ∧ ¬ (3 ∈ pos.tp_levels_hit) then
        (true, Bk.close_partial_tp pos tick 3 t.tp3)
      else if price ≤ t.tp2 ∧ ¬ (2 ∈ pos.tp_levels_hit) then
        (true, Bk.close_partial_tp pos tick 2 t.tp2)
      else if price ≤ t.tp1 ∧ ¬ (1 ∈ pos.tp_levels_hit) then
        (true, Bk.close_partial_tp pos tick 1 t.tp1)
      else (false, pos)
  | .OHLC_INTRABAR =>
    if t.direction = "BUY" then
      if tick.bar_low ≤ t.sl then (true, Bk.close_position_sl pos tick t.sl)
      else if tick.bar_high ≥ t.tp3 ∧ ¬ (3 ∈ pos.tp_levels_hit) then
        (true, Bk.close_partial_tp pos tick 3 t.tp3)
      else if tick.bar_high ≥ t.tp2 ∧ ¬ (2 ∈ pos.tp_levels_hit) then
        (true, Bk.close_partial_tp pos tick 2 t.tp2)
      else if tick.bar_high ≥ t.tp1 ∧ ¬ (1 ∈ pos.tp_levels_hit) then
        (true, Bk.close_partial_tp pos tick 1 t.tp1)
      else (false, pos)
    else
      if tick.bar_high ≥ t.sl then (true, Bk.close_position_sl pos tick t.sl)
      else if tick.bar_low ≤ t.tp3 ∧ ¬ (3 ∈ pos.tp_levels_hit) then
        (true, Bk.close_partial_tp pos tick 3 t.tp3)
      else if tick.bar_low ≤ t.tp2 ∧ ¬ (2 ∈ pos.tp_levels_hit) then
        (true, Bk.close_partial_tp pos tick 2 t.tp2)
      else if tick.bar_low ≤ t.tp1 ∧ ¬ (1 ∈ pos.tp_levels_hit) then
        (true, Bk.close_partial_tp pos tick 1 t.tp1)
      else (false, pos)

end EventEngine

/-!  Concrete instances used by witnesses and counterexamples. -/

/-- A cost-free broker over a 0.0001-pip symbol. -/
def ex_broker : Broker := ⟨0, 0, 0, 10, 1 / 10000⟩

/-- A minimal engine configuration: 1-bar warmup/lookback, legacy request
mode, next-open fills, cost-free. -/
def ex_cfg : Config :=
  { symbol := "EURUSD", timeframe := "H1", test_years := none,
    train_years_lookback := 2, use_optimized_mode := false,
    lookback_bars := 1, min_confidence := none,
    broken_level_cooldown_hours := none, broken_level_break_pips := none,
    min_edge_pips := none, spread_pips := 0, slippage_pips := 0,
    commission_per_side_per_lot := 0, usd_per_pip_per_lot := 10,
    lot_size := 1, initial_balance_usd := 10000, fill_at := "next_open",
    warmup_bars := 1 }

def resp_hold : SignalResp := ⟨"HOLD", 0, 0, 0, 0, 0, 0, 0, 0, 0, "h"⟩

/-- An oracle that always answers HOLD. -/
def ex_api_hold : Api := ⟨fun _ _ _ _ _ => resp_hold, fun _ _ _ _ => resp_hold⟩

def ex_bars2 : List Bar :=
  [⟨⟨2023, 0⟩, 1, 1, 1, 1, 0⟩, ⟨⟨2023, 1⟩, 1, 1, 1, 1, 0⟩]

/-- Walk-forward/grid-search instance: one test year (2023) preceded by a
2022 training bar; `signal_close` fills so a signal trades immediately. -/
def wf_cfg : Config :=
  { symbol := "EURUSD", timeframe := "H1", test_years := some [2023],
    train_years_lookback := 2, use_optimized_mode := false,
    lookback_bars := 1, min_confidence := none,
    broken_level_cooldown_hours := none, broken_level_break_pips := none,
    min_edge_pips := none, spread_pips := 0, slippage_pips := 0,
    commission_per_side_per_lot := 0, usd_per_pip_per_lot := 10,
    lot_size := 1, initial_balance_usd := 10000, fill_at := "signal_close",
    warmup_bars := 1 }

/-- Setup used by grid combination A: SL 0.90, TP1 1.30. -/
def resp_a : SignalResp := ⟨"BUY", 1, 1, 9/10, 13/10, 2, 3, 1, 0, 0, "a"⟩

/-- Setup used by grid combination B: SL 0.97, TP1 1.10. -/
def resp_b : SignalResp := ⟨"BUY", 1, 1, 97/100, 11/10, 2, 3, 1, 0, 0, "b"⟩

/-- A deterministic oracle whose answer depends only on the transmitted
`min_confidence` parameter (0.6 → setup A, 0.7 → setup B, otherwise HOLD). -/
def wf_api : Api :=
  ⟨fun _ _ _ _ _ => resp_hold,
   fun _ _ _ p =>
     match p.min_confidence with
     | some q => if q = 6/10 then resp_a else if q = 7/10 then resp_b else resp_hold
     | none => resp_hold⟩

/-- Dataset A: one 2022 training bar, then test-year 2023 bars whose third
bar has high 1.15 / low 0.98 / close 0.99. -/
def wf_bars_a : List Bar :=
  [⟨⟨2022, 0⟩, 1, 1, 1, 1, 0⟩, ⟨⟨2023, 0⟩, 1, 1, 1, 1, 0⟩,
   ⟨⟨2023, 1⟩, 1, 1, 1, 1, 0⟩, ⟨⟨2023, 2⟩, 1, 115/100, 98/100, 99/100, 0⟩]

/-- Dataset B: identical to dataset A outside the test year (same 2022
training bar); only the last test-year bar differs (high 1.35 / low 0.96). -/
def wf_bars_b : List Bar :=
  [⟨⟨2022, 0⟩, 1, 1, 1, 1, 0⟩, ⟨⟨2023, 0⟩, 1, 1, 1, 1, 0⟩,
   ⟨⟨2023, 1⟩, 1, 1, 1, 1, 0⟩, ⟨⟨2023, 2⟩, 1, 135/100, 96/100, 99/100, 0⟩]

def combo_a : ParamCombo := [("min_confidence", 6/10)]

def combo_b : ParamCombo := [("min_confidence", 7/10)]

/-- Dataset A with one extra 2021 training bar appended: identical test
year, still-nonempty training window. -/
def wf_bars_c : List Bar := wf_bars_a ++ [⟨⟨2021, 0⟩, 1, 1, 1, 1, 0⟩]

/-! ## Theorems -/

/-- **C2** (SL priority, `BrokerSimulator.update_trade`): on any bar whose
range satisfies the stop-loss condition of an open position (`low <= sl`
for a BUY, `high >= sl` for a SELL), the per-bar update closes the entire
remaining position with exit reason SL — the fill being the stop-loss price
adjusted by the configured slippage — books exactly one exit leg (of the
whole remaining size), and leaves every take-profit flag untouched, so no
take-profit leg fills for that position on that bar even when the bar's
range also crosses take-profit levels. -/
theorem C2_stop_loss_priority (B : Broker) (t : Trade) (tm : DateTime)
    (high low close : ℚ) (hopen : 0 < t.remaining_lots)
    (hcond : (t.direction = "BUY" ∧ low ≤ t.sl) ∨
             (t.direction = "SELL" ∧ t.sl ≤ high)) :
    (B.update_trade_full t tm high low close).1.remaining_lots = 0 ∧
    (B.update_trade_full t tm high low close).1.closed_lots =
      t.closed_lots + t.remaining_lots ∧
    (B.update_trade_full t tm high low close).1.exit_reason = some ExitReason.SL ∧
    (B.update_trade_full t tm high low close).1.exit_price =
      some (if t.direction = "BUY" then t.sl - B.slippage_pips * B.pip_value
            else t.sl + B.slippage_pips * B.pip_value) ∧
    (B.update_trade_full t tm high low close).1.tp1_hit = t.tp1_hit ∧
    (B.update_trade_full t tm high low close).1.tp2_hit = t.tp2_hit ∧
    (B.update_trade_full t tm high low close).1.tp3_hit = t.tp3_hit ∧
    (B.update_trade_full t tm high low close).2.1 = true ∧
    ((B.update_trade_full t tm high low close).2.2.map Leg.lots) =
      [t.remaining_lots] := by
  rcases hcond with ⟨hdir, hsl⟩ | ⟨hdir, hsl⟩ <;>
    simp [Broker.update_trade_full, Trade.is_closed, Broker.close_trade_full,
      hdir, hsl, hopen.not_le, not_lt.mpr]

/-- Witness for C2 at a concrete BUY position and bar. -/
theorem C2_stop_loss_priority_witness :
    ((⟨2, 1, 4, 10, 1/10000⟩ : Broker).update_trade_full
        ((⟨2, 1, 4, 10, 1/10000⟩ : Broker).open_trade "BUY" ⟨2023, 0⟩ (11/10) 1
          (109/100) (111/100) (112/100) (113/100) (1/2) (3/10) (1/5) 1 "w")
        ⟨2023, 1⟩ (114/100) (108/100) (110/100)).1.exit_reason =
      some ExitReason.SL := by
  have h := C2_stop_loss_priority (⟨2, 1, 4, 10, 1/10000⟩ : Broker)
    ((⟨2, 1, 4, 10, 1/10000⟩ : Broker).open_trade "BUY" ⟨2023, 0⟩ (11/10) 1
      (109/100) (111/100) (112/100) (113/100) (1/2) (3/10) (1/5) 1 "w")
    ⟨2023, 1⟩ (114/100) (108/100) (110/100) (by norm_num [Broker.open_trade])
    (Or.inl ⟨rfl, by norm_num [Broker.open_trade]⟩)
  exact h.2.2.1

/-- **C10** (`BacktestEngine._open_position`): with fill policy
`"next_open"`, a signal produced while standing at the last bar of the
series opens no position — the function returns the state unchanged (no
fill at the signal bar's close, no failure, no trade recorded). -/
theorem C10_next_open_last_bar_discards (cfg : Config) (B : Broker)
    (bars : List Bar) (sig : SignalResp) (i : ℕ) (st : EngState)
    (hfill : cfg.fill_at = "next_open") (hlast : bars.length ≤ i + 1) :
    open_position cfg B bars sig i st = st := by
  simp [open_position, hfill, hlast]

/-- Witness for C10: a BUY signal at the last bar of a 2-bar series. -/
theorem C10_next_open_last_bar_discards_witness :
    open_position
      { symbol := "EURUSD", timeframe := "H1", test_years := none,
        train_years_lookback := 2, use_optimized_mode := false,
        lookback_bars := 1, min_confidence := none,
        broken_level_cooldown_hours := none, broken_level_break_pips := none,
        min_edge_pips := none, spread_pips := 0, slippage_pips := 0,
        commission_per_side_per_lot := 0, usd_per_pip_per_lot := 10,
        lot_size := 1, initial_balance_usd := 10000, fill_at := "next_open",
        warmup_bars := 1 }
      ⟨0, 0, 0, 10, 1/10000⟩
      [⟨⟨2023, 0⟩, 1, 1, 1, 1, 0⟩, ⟨⟨2023, 1⟩, 1, 1, 1, 1, 0⟩]
      ⟨"BUY", 1, 1, 9/10, 11/10, 12/10, 13/10, 1/2, 3/10, 1/5, "w"⟩ 1
      ⟨none, 10000, [], [], 0, 0, 0, 0⟩ =
    ⟨none, 10000, [], [], 0, 0, 0, 0⟩ :=
  C10_next_open_last_bar_discards _ _ _ _ _ _ rfl (by norm_num)

/-- **C6 (amended)** (`BacktestEngine._compute_results`): the profit factor
equals `gross_profit / gross_loss` whenever `gross_loss > 0`; with zero
trades it is 0 (the early-return branch); and whenever at least one trade
exists and `gross_loss = 0` it is `+inf` — in particular `+inf` when
`gross_profit > 0` as the claim states, but *also* `+inf` (not 0) in the
degenerate case `gross_profit = gross_loss = 0` with a nonempty trade
list. -/
theorem C6_profit_factor (cfg : Config) (st : EngState) :
    (st.trades = [] →
      (compute_results cfg st).profit_factor = ((0 : ℚ) : WithTop ℚ)) ∧
    (st.trades ≠ [] →
      ((compute_results cfg st).gross_loss_usd > 0 →
        (compute_results cfg st).profit_factor =
          (((compute_results cfg st).gross_profit_usd /
              (compute_results cfg st).gross_loss_usd : ℚ) : WithTop ℚ)) ∧
      ((compute_results cfg st).gross_loss_usd = 0 →
        (compute_results cfg st).profit_factor = ⊤)) := by
  by_cases h : st.trades = []
  · refine ⟨fun _ => ?_, fun h' => absurd h h'⟩
    simp [compute_results, h]
  · refine ⟨fun h' => absurd h' h, fun _ => ?_⟩
    constructor
    · intro hgl
      simp only [compute_results, h, if_false] at hgl ⊢
      simp_all
    · intro hgl
      simp only [compute_results, h, if_false] at hgl ⊢
      simp_all

/-- Witness for C6 at a one-trade state with a strictly losing trade. -/
theorem C6_profit_factor_witness :
    (compute_results
      { symbol := "EURUSD", timeframe := "H1", test_years := none,
        train_years_lookback := 2, use_optimized_mode := false,
        lookback_bars := 1, min_confidence := none,
        broken_level_cooldown_hours := none, broken_level_break_pips := none,
        min_edge_pips := none, spread_pips := 0, slippage_pips := 0,
        commission_per_side_per_lot := 0, usd_per_pip_per_lot := 10,
        lot_size := 1, initial_balance_usd := 10000, fill_at := "next_open",
        warmup_bars := 1 }
      ⟨none, 9000,
        [(⟨0, 0, 0, 10, 1/10000⟩ : Broker).close_trade
          ((⟨0, 0, 0, 10, 1/10000⟩ : Broker).open_trade "BUY" ⟨2023, 0⟩ 1 1
            (9/10) (11/10) (12/10) (13/10) (1/2) (3/10) (1/5) 1 "w")
          ⟨2023, 1⟩ (9/10) ExitReason.SL],
        [], 1, 1, 0, 0⟩).profit_factor = ((0 : ℚ) : WithTop ℚ) := by
  have h := C6_profit_factor
    { symbol := "EURUSD", timeframe := "H1", test_years := none,
      train_years_lookback := 2, use_optimized_mode := false,
      lookback_bars := 1, min_confidence := none,
      broken_level_cooldown_hours := none, broken_level_break_pips := none,
      min_edge_pips := none, spread_pips := 0, slippage_pips := 0,
      commission_per_side_per_lot := 0, usd_per_pip_per_lot := 10,
      lot_size := 1, initial_balance_usd := 10000, fill_at := "next_open",
      warmup_bars := 1 }
    ⟨none, 9000,
      [(⟨0, 0, 0, 10, 1/10000⟩ : Broker).close_trade
        ((⟨0, 0, 0, 10, 1/10000⟩ : Broker).open_trade "BUY" ⟨2023, 0⟩ 1 1
          (9/10) (11/10) (12/10) (13/10) (1/2) (3/10) (1/5) 1 "w")
        ⟨2023, 1⟩ (9/10) ExitReason.SL],
      [], 1, 1, 0, 0⟩
  rw [(h.2 (by decide)).1 (by decide)]
  decide

/-- **C6 counterexample**: a state holding exactly one trade whose net P&L
is exactly zero (a MANUAL close at the entry price under a zero-cost
broker).  Both `gross_profit` and `gross_loss` are 0, yet the computed
profit factor is `+inf`, not the 0 the claim requires. -/
theorem C6_counterexample :
    (compute_results
      { symbol := "EURUSD", timeframe := "H1", test_years := none,
        train_years_lookback := 2, use_optimized_mode := false,
        lookback_bars := 1, min_confidence := none,
        broken_level_cooldown_hours := none, broken_level_break_pips := none,
        min_edge_pips := none, spread_pips := 0, slippage_pips := 0,
        commission_per_side_per_lot := 0, usd_per_pip_per_lot := 10,
        lot_size := 1, initial_balance_usd := 10000, fill_at := "next_open",
        warmup_bars := 1 }
      ⟨none, 10000,
        [(⟨0, 0, 0, 10, 1/10000⟩ : Broker).close_trade
          ((⟨0, 0, 0, 10, 1/10000⟩ : Broker).open_trade "BUY" ⟨2023, 0⟩ 1 1
            (9/10) (11/10) (12/10) (13/10) (1/2) (3/10) (1/5) 1 "w")
          ⟨2023, 1⟩ 1 ExitReason.MANUAL],
        [], 1, 1, 0, 0⟩).gross_profit_usd = 0 ∧
    (compute_results
      { symbol := "EURUSD", timeframe := "H1", test_years := none,
        train_years_lookback := 2, use_optimized_mode := false,
        lookback_bars := 1, min_confidence := none,
        broken_level_cooldown_hours := none, broken_level_break_pips := none,
        min_edge_pips := none, spread_pips := 0, slippage_pips := 0,
        commission_per_side_per_lot := 0, usd_per_pip_per_lot := 10,
        lot_size := 1, initial_balance_usd := 10000, fill_at := "next_open",
        warmup_bars := 1 }
      ⟨none, 10000,
        [(⟨0, 0, 0, 10, 1/10000⟩ : Broker).close_trade
          ((⟨0, 0, 0, 10, 1/10000⟩ : Broker).open_trade "BUY" ⟨2023, 0⟩ 1 1
            (9/10) (11/10) (12/10) (13/10) (1/2) (3/10) (1/5) 1 "w")
          ⟨2023, 1⟩ 1 ExitReason.MANUAL],
        [], 1, 1, 0, 0⟩).gross_loss_usd = 0 ∧
    (compute_results
      { symbol := "EURUSD", timeframe := "H1", test_years := none,
        train_years_lookback := 2, use_optimized_mode := false,
        lookback_bars := 1, min_confidence := none,
        broken_level_cooldown_hours := none, broken_level_break_pips := none,
        min_edge_pips := none, spread_pips := 0, slippage_pips := 0,
        commission_per_side_per_lot := 0, usd_per_pip_per_lot := 10,
        lot_size := 1, initial_balance_usd := 10000, fill_at := "next_open",
        warmup_bars := 1 }
      ⟨none, 10000,
        [(⟨0, 0, 0, 10, 1/10000⟩ : Broker).close_trade
          ((⟨0, 0, 0, 10, 1/10000⟩ : Broker).open_trade "BUY" ⟨2023, 0⟩ 1 1
            (9/10) (11/10) (12/10) (13/10) (1/2) (3/10) (1/5) 1 "w")
          ⟨2023, 1⟩ 1 ExitReason.MANUAL],
        [], 1, 1, 0, 0⟩).profit_factor ≠ ((0 : ℚ) : WithTop ℚ) := by
  refine ⟨by decide, by decide, by decide⟩

/-- **C7** (`BacktestEngine._compute_results`): the win rate is
`count(net P&L > 0) / total` (0 with zero trades), losers are exactly the
trades with `net P&L < 0`, and the classification reads nothing but the
sign of the net P&L after costs: rewriting every trade arbitrarily while
preserving its `net_pnl_usd` (e.g. flipping which exit reason or TP flags
fired) leaves the win rate unchanged, so a trade that hit TP1 but nets
negative after costs counts as a loss. -/
theorem C7_win_rate_sign_based (cfg : Config) (st : EngState) (f : Trade → Trade)
    (hf : ∀ t, (f t).net_pnl_usd = t.net_pnl_usd) :
    ((compute_results cfg st).win_rate =
      if st.trades = [] then 0
      else ((st.trades.filter (fun t => t.net_pnl_usd > 0)).length : ℚ) /
        (st.trades.length : ℚ)) ∧
    ((compute_results cfg st).losing_trades =
      (st.trades.filter (fun t => t.net_pnl_usd < 0)).length) ∧
    (compute_results cfg { st with trades := st.trades.map f }).win_rate =
      (compute_results cfg st).win_rate := by
  have hfilt : ∀ (l : List Trade),
      ((l.map f).filter (fun t => t.net_pnl_usd > 0)).length =
        (l.filter (fun t => t.net_pnl_usd > 0)).length := by
    intro l
    induction l with
    | nil => rfl
    | cons a l ih =>
      by_cases hp : a.net_pnl_usd > 0 <;>
        simp [List.filter_cons, hf, hp, ih]
  by_cases h : st.trades = []
  · simp [compute_results, h]
  · have hmap : st.trades.map f ≠ [] := by
      simpa using h
    have hlen : (0 : ℕ) < st.trades.length := List.length_pos.mpr h
    refine ⟨?_, ?_, ?_⟩
    · simp [compute_results, h, hlen]
    · simp [compute_results, h]
    · simp [compute_results, h, hmap, hlen, hfilt]

/-- Witness for C7: a single TP1-hit trade with negative net P&L, with `f`
rewriting its exit reason; the win rate is 0 either way. -/
theorem C7_win_rate_sign_based_witness :
    (compute_results
      { symbol := "EURUSD", timeframe := "H1", test_years := none,
        train_years_lookback := 2, use_optimized_mode := false,
        lookback_bars := 1, min_confidence := none,
        broken_level_cooldown_hours := none, broken_level_break_pips := none,
        min_edge_pips := none, spread_pips := 0, slippage_pips := 0,
        commission_per_side_per_lot := 20000, usd_per_pip_per_lot := 10,
        lot_size := 1, initial_balance_usd := 10000, fill_at := "next_open",
        warmup_bars := 1 }
      ⟨none, 10000,
        [(⟨0, 0, 20000, 10, 1/10000⟩ : Broker).partial_close
          ((⟨0, 0, 20000, 10, 1/10000⟩ : Broker).open_trade "BUY" ⟨2023, 0⟩ 1 1
            (9/10) (11/10) (12/10) (13/10) 1 0 0 1 "w")
          ⟨2023, 1⟩ (11/10) ExitReason.TP1],
        [], 1, 1, 0, 0⟩).win_rate = 0 := by
  have h := C7_win_rate_sign_based
    { symbol := "EURUSD", timeframe := "H1", test_years := none,
      train_years_lookback := 2, use_optimized_mode := false,
      lookback_bars := 1, min_confidence := none,
      broken_level_cooldown_hours := none, broken_level_break_pips := none,
      min_edge_pips := none, spread_pips := 0, slippage_pips := 0,
      commission_per_side_per_lot := 20000, usd_per_pip_per_lot := 10,
      lot_size := 1, initial_balance_usd := 10000, fill_at := "next_open",
      warmup_bars := 1 }
    ⟨none, 10000,
      [(⟨0, 0, 20000, 10, 1/10000⟩ : Broker).partial_close
        ((⟨0, 0, 20000, 10, 1/10000⟩ : Broker).open_trade "BUY" ⟨2023, 0⟩ 1 1
          (9/10) (11/10) (12/10) (13/10) 1 0 0 1 "w")
        ⟨2023, 1⟩ (11/10) ExitReason.TP1],
      [], 1, 1, 0, 0⟩
    (fun t => { t with exit_reason := some ExitReason.MANUAL })
    (fun _ => rfl)
  rw [h.1]
  decide

/-- The legacy-mode signal window is never empty when the lookback is
positive and the index is in range, and its last element is exactly
`bars[i]`. -/
lemma signal_window_getLast (bars : List Bar) (lookback i : ℕ)
    (hi : i < bars.length) (hlb : 0 < lookback) :
    (signal_window bars lookback i).getLast? = some bars[i] := by
  have hlen : (bars.take (i + 1)).length = i + 1 := by
    simp [List.length_take]
    omega
  have hd : i + 1 - lookback ≤ i := by omega
  rw [signal_window, List.getLast?_eq_getElem?]
  have hlen' : ((bars.take (i + 1)).drop (i + 1 - lookback)).length =
      (i + 1) - (i + 1 - lookback) := by
    simp [List.length_drop, hlen]
  rw [hlen']
  rw [List.getElem?_drop]
  have harith : i + 1 - lookback + ((i + 1) - (i + 1 - lookback) - 1) = i := by omega
  rw [harith]
  rw [List.getElem?_take_of_lt (Nat.lt_succ_self i)]
  simp [hi]

/-- **C1** (no look-ahead, `BacktestEngine._get_signal`): whenever the
engine stands at a valid bar index `i` (with a positive lookback), the bar
window it transmits in legacy mode ends exactly at bar `i` — its last
element is `bars[i]` and it is a suffix of the first `i + 1` bars, so no
bar with index greater than `i` appears in it; and consequently, for any
two series agreeing on all bars up to and including index `i`, the signal
obtained at `i` (in optimized mode as well as legacy mode, and for every
oracle) is identical — mutating bars after index `i` cannot change the
decision made at `i`. -/
theorem C1_no_look_ahead (cfg : Config) (api : Api) (bars bars' : List Bar)
    (i : ℕ) (hi : i < bars.length) (hlb : 0 < cfg.lookback_bars)
    (hagree : bars.take (i + 1) = bars'.take (i + 1)) :
    (signal_window bars cfg.lookback_bars i).getLast? = some bars[i] ∧
    (signal_window bars cfg.lookback_bars i).IsSuffix (bars.take (i + 1)) ∧
    get_signal cfg api bars i = get_signal cfg api bars' i := by
  have hi' : i < bars'.length := by
    have h1 : (bars.take (i + 1)).length = i + 1 := by
      simp [List.length_take]; omega
    have h2 : (bars'.take (i + 1)).length = min (i + 1) bars'.length := by
      simp [List.length_take]
    rw [hagree, h2] at h1
    omega
  have hget : bars[i] = bars'[i] := by
    have h1 : (bars.take (i + 1))[i]? = (bars'.take (i + 1))[i]? := by rw [hagree]
    rw [List.getElem?_take_of_lt (Nat.lt_succ_self i),
      List.getElem?_take_of_lt (Nat.lt_succ_self i)] at h1
    rw [List.getElem?_eq_getElem hi, List.getElem?_eq_getElem hi'] at h1
    exact Option.some_injective _ h1
  refine ⟨signal_window_getLast bars cfg.lookback_bars i hi hlb,
    List.drop_suffix _ _, ?_⟩
  by_cases hmode : cfg.use_optimized_mode
  · have hb : bars[i]! = bars'[i]! := by
      rw [getElem!_pos bars i hi, getElem!_pos bars' i hi', hget]
    simp [get_signal, hmode, hb]
  · have hw : signal_window bars cfg.lookback_bars i =
        signal_window bars' cfg.lookback_bars i := by
      unfold signal_window
      rw [hagree]
    simp [get_signal, hmode, hw]

/-- Witness for C1: two 2-bar-vs-3-bar series agreeing on their first two
bars give the same signal at index 1, and the window at index 1 ends at
bar 1. -/
theorem C1_no_look_ahead_witness :
    (signal_window
      [⟨⟨2023, 0⟩, 1, 1, 1, 1, 0⟩, ⟨⟨2023, 1⟩, 2, 2, 2, 2, 0⟩]
      1 1).getLast? = some ⟨⟨2023, 1⟩, 2, 2, 2, 2, 0⟩ ∧
    (signal_window
      [⟨⟨2023, 0⟩, 1, 1, 1, 1, 0⟩, ⟨⟨2023, 1⟩, 2, 2, 2, 2, 0⟩]
      1 1).IsSuffix
      (([⟨⟨2023, 0⟩, 1, 1, 1, 1, 0⟩, ⟨⟨2023, 1⟩, 2, 2, 2, 2, 0⟩] :
        List Bar).take 2) ∧
    get_signal
      { symbol := "EURUSD", timeframe := "H1", test_years := none,
        train_years_lookback := 2, use_optimized_mode := false,
        lookback_bars := 1, min_confidence := none,
        broken_level_cooldown_hours := none, broken_level_break_pips := none,
        min_edge_pips := none, spread_pips := 0, slippage_pips := 0,
        commission_per_side_per_lot := 0, usd_per_pip_per_lot := 10,
        lot_size := 1, initial_balance_usd := 10000, fill_at := "next_open",
        warmup_bars := 1 }
      ⟨fun _ _ _ _ _ => default, fun _ _ w _ => ⟨"HOLD", (w.map Bar.close).sum,
        0, 0, 0, 0, 0, 0, 0, 0, "h"⟩⟩
      [⟨⟨2023, 0⟩, 1, 1, 1, 1, 0⟩, ⟨⟨2023, 1⟩, 2, 2, 2, 2, 0⟩] 1 =
    get_signal
      { symbol := "EURUSD", timeframe := "H1", test_years := none,
        train_years_lookback := 2, use_optimized_mode := false,
        lookback_bars := 1, min_confidence := none,
        broken_level_cooldown_hours := none, broken_level_break_pips := none,
        min_edge_pips := none, spread_pips := 0, slippage_pips := 0,
        commission_per_side_per_lot := 0, usd_per_pip_per_lot := 10,
        lot_size := 1, initial_balance_usd := 10000, fill_at := "next_open",
        warmup_bars := 1 }
      ⟨fun _ _ _ _ _ => default, fun _ _ w _ => ⟨"HOLD", (w.map Bar.close).sum,
        0, 0, 0, 0, 0, 0, 0, 0, "h"⟩⟩
      [⟨⟨2023, 0⟩, 1, 1, 1, 1, 0⟩, ⟨⟨2023, 1⟩, 2, 2, 2, 2, 0⟩,
       ⟨⟨2024, 0⟩, 9, 9, 9, 9, 0⟩] 1 := by
  have h := C1_no_look_ahead
    { symbol := "EURUSD", timeframe := "H1", test_years := none,
      train_years_lookback := 2, use_optimized_mode := false,
      lookback_bars := 1, min_confidence := none,
      broken_level_cooldown_hours := none, broken_level_break_pips := none,
      min_edge_pips := none, spread_pips := 0, slippage_pips := 0,
      commission_per_side_per_lot := 0, usd_per_pip_per_lot := 10,
      lot_size := 1, initial_balance_usd := 10000, fill_at := "next_open",
      warmup_bars := 1 }
    ⟨fun _ _ _ _ _ => default, fun _ _ w _ => ⟨"HOLD", (w.map Bar.close).sum,
      0, 0, 0, 0, 0, 0, 0, 0, "h"⟩⟩
    [⟨⟨2023, 0⟩, 1, 1, 1, 1, 0⟩, ⟨⟨2023, 1⟩, 2, 2, 2, 2, 0⟩]
    [⟨⟨2023, 0⟩, 1, 1, 1, 1, 0⟩, ⟨⟨2023, 1⟩, 2, 2, 2, 2, 0⟩,
     ⟨⟨2024, 0⟩, 9, 9, 9, 9, 0⟩]
    1 (by norm_num) (by norm_num) (by decide)
  exact h

lemma update_open_position_equity (B : Broker) (st : EngState) (bar : Bar) :
    (update_open_position B st bar).equity_curve = st.equity_curve := by
  unfold update_open_position
  cases st.open_trade with
  | none => rfl
  | some t =>
    dsimp only
    split
    · rfl
    · split <;> simp [finalize_trade]

lemma open_position_equity (cfg : Config) (B : Broker) (bars : List Bar)
    (sig : SignalResp) (i : ℕ) (st : EngState) :
    (open_position cfg B bars sig i st).equity_curve = st.equity_curve := by
  unfold open_position
  by_cases h : cfg.fill_at = "next_open"
  · by_cases h2 : i + 1 ≥ bars.length <;> simp [h, h2]
  · simp [h]

lemma record_equity_shape (st : EngState) (base : List EquityPoint)
    (tm : DateTime) (h : st.equity_curve = base) :
    ∃ bal un : ℚ, (record_equity st tm).equity_curve =
      base ++ [⟨tm, bal, un, bal + un⟩] :=
  ⟨st.balance, _, by rw [← h]; rfl⟩

/-- Each loop iteration appends exactly one equity point, timestamped with
the processed bar's time and satisfying `equity = balance + unrealized`. -/
lemma step_bar_equity (cfg : Config) (B : Broker) (api : Api) (bars : List Bar)
    (st : EngState) (i : ℕ) :
    ∃ bal un : ℚ, (step_bar cfg B api bars st i).equity_curve =
      st.equity_curve ++ [⟨(bars[i]!).time, bal, un, bal + un⟩] := by
  unfold step_bar
  dsimp only
  apply record_equity_shape
  cases h2 : (update_open_position B st bars[i]!).open_trade with
  | some t =>
    simp only [h2]
    exact update_open_position_equity B st bars[i]!
  | none =>
    simp only [h2]
    split
    · rw [open_position_equity]
      exact update_open_position_equity B st bars[i]!
    · split
      · rw [open_position_equity]
        exact update_open_position_equity B st bars[i]!
      · exact update_open_position_equity B st bars[i]!

/-- The loop's equity-curve timestamps: one per processed index, in order. -/
lemma loop_equity_times (cfg : Config) (B : Broker) (api : Api)
    (bars : List Bar) (ks : List ℕ) (st0 : EngState) :
    ((ks.foldl (fun st k => step_bar cfg B api bars st (cfg.warmup_bars + k))
        st0).equity_curve).map (fun p => p.time) =
      (st0.equity_curve.map (fun p => p.time)) ++
        ks.map (fun k => (bars[cfg.warmup_bars + k]!).time) := by
  induction ks generalizing st0 with
  | nil => simp
  | cons k ks ih =>
    rw [List.foldl_cons, ih]
    obtain ⟨bal, un, h⟩ := step_bar_equity cfg B api bars st0 (cfg.warmup_bars + k)
    rw [h]
    simp

/-- Every equity point produced by the loop satisfies
`equity = balance + unrealized_pnl`. -/
lemma loop_equity_balanced (cfg : Config) (B : Broker) (api : Api)
    (bars : List Bar) (ks : List ℕ) (st0 : EngState)
    (h0 : ∀ p ∈ st0.equity_curve, p.equity = p.balance + p.unrealized_pnl) :
    ∀ p ∈ (ks.foldl
        (fun st k => step_bar cfg B api bars st (cfg.warmup_bars + k))
        st0).equity_curve,
      p.equity = p.balance + p.unrealized_pnl := by
  induction ks generalizing st0 with
  | nil => simpa using h0
  | cons k ks ih =>
    rw [List.foldl_cons]
    apply ih
    obtain ⟨bal, un, h⟩ := step_bar_equity cfg B api bars st0 (cfg.warmup_bars + k)
    rw [h]
    intro p hp
    rcases List.mem_append.mp hp with hp | hp
    · exact h0 p hp
    · simp at hp
      subst hp
      rfl

lemma close_remaining_equity (B : Broker) (bars : List Bar) (st : EngState) :
    (close_remaining B bars st).equity_curve = st.equity_curve := by
  unfold close_remaining
  cases st.open_trade <;> simp [finalize_trade]

lemma range_map_bar_times (bars : List Bar) (w : ℕ) (hw : w ≤ bars.length) :
    (List.range (bars.length - w)).map (fun k => (bars[w + k]!).time) =
      (bars.drop w).map Bar.time := by
  apply List.ext_getElem
  · simp
  · intro n h1 h2
    simp only [List.getElem_map, List.getElem_range, List.getElem_drop]
    have hn : w + n < bars.length := by
      simp at h1
      omega
    rw [getElem!_pos bars (w + n) hn]

/-- **C9** (`BacktestEngine.run` / `_record_equity`): a successful run
records exactly one equity point per processed bar (indices
`warmup_bars … len(bars) - 1`), in bar order with no gaps and no
duplicates — the recorded timestamps are exactly the timestamps of
`bars.drop warmup_bars`, also on bars where no trade occurs — and every
recorded point satisfies `equity = balance + unrealized_pnl`, where the
point's `unrealized_pnl` is the open position's current net P&L or 0 when
no position is open (`record_equity`'s definition). -/
theorem C9_equity_curve (cfg : Config) (B : Broker) (api : Api)
    (bars : List Bar) (st : EngState) (res : EngineResult)
    (h : engine_run cfg B api bars = some (st, res)) :
    st.equity_curve.map (fun p => p.time) =
      (bars.drop cfg.warmup_bars).map Bar.time ∧
    st.equity_curve.length = bars.length - cfg.warmup_bars ∧
    ∀ p ∈ st.equity_curve, p.equity = p.balance + p.unrealized_pnl := by
  unfold engine_run at h
  split at h
  · exact absurd h (by simp)
  · rename_i hlen
    have hw : cfg.warmup_bars ≤ bars.length := Nat.le_of_not_lt hlen
    have hst : st = close_remaining B bars (run_loop cfg B api bars) := by
      have := Option.some.inj h
      exact (congrArg Prod.fst this).symm
    have htimes : st.equity_curve.map (fun p => p.time) =
        (bars.drop cfg.warmup_bars).map Bar.time := by
      rw [hst, close_remaining_equity]
      unfold run_loop
      rw [loop_equity_times]
      simp only [init_state, List.map_nil, List.nil_append]
      exact range_map_bar_times bars cfg.warmup_bars hw
    refine ⟨htimes, ?_, ?_⟩
    · have := congrArg List.length htimes
      simpa using this
    · rw [hst, close_remaining_equity]
      unfold run_loop
      exact loop_equity_balanced cfg B api bars _ _ (by simp [init_state])

/-- Witness for C9: a 2-bar cost-free run with an always-HOLD oracle
records exactly `len(bars) - warmup_bars` equity points. -/
theorem C9_equity_curve_witness :
    (close_remaining ex_broker ex_bars2
      (run_loop ex_cfg ex_broker ex_api_hold ex_bars2)).equity_curve.length =
      ex_bars2.length - ex_cfg.warmup_bars := by
  have h := C9_equity_curve ex_cfg ex_broker ex_api_hold ex_bars2
    (close_remaining ex_broker ex_bars2
      (run_loop ex_cfg ex_broker ex_api_hold ex_bars2))
    (compute_results ex_cfg
      (close_remaining ex_broker ex_bars2
        (run_loop ex_cfg ex_broker ex_api_hold ex_bars2)))
    (by rfl)
  exact h.2.1

lemma mem_insert_desc (key : GridResult → EV) (x : GridResult)
    (l : List GridResult) (z : GridResult) :
    z ∈ insert_desc key x l ↔ z = x ∨ z ∈ l := by
  induction l with
  | nil => simp [insert_desc]
  | cons y ys ih =>
    unfold insert_desc
    split
    all_goals simp only [List.mem_cons, ih]
    all_goals tauto

lemma pairwise_insert_desc (key : GridResult → EV) (x : GridResult)
    (l : List GridResult)
    (h : l.Pairwise (fun a c => key c ≤ key a)) :
    (insert_desc key x l).Pairwise (fun a c => key c ≤ key a) := by
  induction l with
  | nil => simp [insert_desc]
  | cons y ys ih =>
    rw [List.pairwise_cons] at h
    unfold insert_desc
    split
    · rename_i hgt
      rw [List.pairwise_cons]
      refine ⟨?_, ih h.2⟩
      intro z hz
      rcases (mem_insert_desc key x ys z).mp hz with hz | hz
      · exact hz ▸ le_of_lt hgt
      · exact h.1 z hz
    · rename_i hle
      rw [List.pairwise_cons]
      refine ⟨?_, List.pairwise_cons.mpr h⟩
      intro z hz
      rcases List.mem_cons.mp hz with hz | hz
      · exact hz ▸ le_of_not_lt hle
      · exact le_trans (h.1 z hz) (le_of_not_lt hle)

lemma pairwise_sort_desc_aux (key : GridResult → EV) (l : List GridResult) :
    (sort_desc_aux key l).Pairwise (fun a c => key c ≤ key a) := by
  induction l with
  | nil => simp [sort_desc_aux]
  | cons x xs ih => exact pairwise_insert_desc key x _ ih

lemma mem_sort_desc_aux (key : GridResult → EV) (l : List GridResult)
    (z : GridResult) : z ∈ sort_desc_aux key l ↔ z ∈ l := by
  induction l with
  | nil => simp [sort_desc_aux]
  | cons x xs ih =>
    unfold sort_desc_aux
    rw [mem_insert_desc]
    simp [ih]

/-- The train/test split of a walk-forward run reads the training window
only for its nonemptiness check: the per-year results are a function of the
test-year bars alone. -/
lemma walk_years_depends_on_test (cfg : Config) (B : Broker) (api : Api)
    (bars1 bars2 : List Bar) (ys : List Int)
    (hagree : ∀ y ∈ ys,
      test_filter bars1 y = test_filter bars2 y ∧
      (train_filter bars1 (y - cfg.train_years_lookback) (y - 1) = [] ↔
        train_filter bars2 (y - cfg.train_years_lookback) (y - 1) = [])) :
    walk_years cfg B api bars1 ys = walk_years cfg B api bars2 ys := by
  induction ys with
  | nil => rfl
  | cons y ys ih =>
    have hy := hagree y (List.mem_cons_self y ys)
    have ih' := ih (fun y' hy' => hagree y' (List.mem_cons_of_mem y hy'))
    unfold walk_years
    by_cases htr : train_filter bars1 (y - cfg.train_years_lookback) (y - 1) = []
    · rw [if_pos htr, if_pos (hy.2.mp htr), ih']
    · rw [if_neg htr, if_neg (fun h => htr (hy.2.mpr h)), hy.1, ih']

lemma merge_config_test_years (cfg : Config) (p : ParamCombo) :
    (merge_config cfg p).test_years = cfg.test_years ∧
    (merge_config cfg p).train_years_lookback = cfg.train_years_lookback := by
  unfold merge_config
  induction p generalizing cfg with
  | nil => exact ⟨rfl, rfl⟩
  | cons kv ps ih =>
    rw [List.foldl_cons]
    refine (ih (apply_param cfg kv)).imp (fun h => h.trans ?_) (fun h => h.trans ?_) <;>
      · unfold apply_param
        split_ifs <;> rfl

/-- **C4 (amended)** (`walk_forward.py` + `grid_search.py`): no training
evaluation occurs.  Every engine run inside a walk-forward pass is on a
test-year window; the training sub-window is only tested for nonemptiness,
so the whole walk-forward result — and hence the grid search's evaluation
of every parameter combination, its sorted result list and the combination
reported as best — is a function of the test-year bars alone (given the
same train-window-nonemptiness pattern).  The reported best combination is
one maximizing the configured objective metric over those test-window
evaluations (missing metric read as `-inf`; no net-P&L tie-break beyond
sort stability).  Selection therefore uses test-window data, not training
profit factor. -/
theorem C4_selection_uses_test_data (cfg : Config) (api : Api)
    (bars1 bars2 : List Bar) (years : List Int)
    (hty : cfg.test_years = some years)
    (hagree : ∀ y ∈ years,
      test_filter bars1 y = test_filter bars2 y ∧
      (train_filter bars1 (y - cfg.train_years_lookback) (y - 1) = [] ↔
        train_filter bars2 (y - cfg.train_years_lookback) (y - 1) = [])) :
    (∀ B : Broker, walk_forward_run cfg B api bars1 =
      walk_forward_run cfg B api bars2) ∧
    (∀ (combos : List ParamCombo) (objective : String),
      grid_search_run cfg api bars1 combos objective =
        grid_search_run cfg api bars2 combos objective) ∧
    (∀ (combos : List ParamCombo) (objective : String) (best : GridResult),
      (grid_search_run cfg api bars1 combos objective).1 = some best →
      ∀ r ∈ (grid_search_run cfg api bars1 combos objective).2,
        metrics_get r.metrics objective ≤ metrics_get best.metrics objective) := by
  have hwf : ∀ cfg' : Config, cfg'.test_years = cfg.test_years →
      cfg'.train_years_lookback = cfg.train_years_lookback →
      ∀ B : Broker, walk_forward_run cfg' B api bars1 =
        walk_forward_run cfg' B api bars2 := by
    intro cfg' h1 h2 B
    unfold walk_forward_run
    rw [h1, hty]
    dsimp only
    rw [walk_years_depends_on_test cfg' B api bars1 bars2 years
      (by rw [h2]; exact hagree)]
  refine ⟨fun B => hwf cfg rfl rfl B, ?_, ?_⟩
  · intro combos objective
    unfold grid_search_run
    have heval : ∀ p : ParamCombo,
        evaluate_combination cfg api bars1 p = evaluate_combination cfg api bars2 p := by
      intro p
      unfold evaluate_combination
      dsimp only
      rw [hwf (merge_config cfg p) (merge_config_test_years cfg p).1
        (merge_config_test_years cfg p).2]
    rw [List.filterMap_congr (fun p _ => heval p)]
  · intro combos objective best hbest r hr
    unfold grid_search_run at hbest hr
    dsimp only at hbest hr
    have hpw := pairwise_sort_desc_aux
      (fun r => metrics_get r.metrics objective)
      (combos.filterMap (evaluate_combination cfg api bars1))
    rcases hsort : sort_results objective
        (combos.filterMap (evaluate_combination cfg api bars1)) with _ | ⟨b, rest⟩
    · rw [hsort] at hbest
      exact absurd hbest (by simp)
    · rw [hsort] at hbest hr
      have hb : b = best := by
        simpa using hbest
      subst hb
      unfold sort_results at hsort
      rw [hsort] at hpw
      rw [List.pairwise_cons] at hpw
      rcases List.mem_cons.mp hr with hr | hr
      · rw [hr]
      · exact hpw.1 r hr

/-- Witness for C4 (amended): appending an extra 2021 training bar to
dataset A changes neither the walk-forward result nor the grid-search
outcome, and the reported best result's objective dominates the sorted
list. -/
theorem C4_selection_uses_test_data_witness :
    walk_forward_run wf_cfg ex_broker wf_api wf_bars_a =
      walk_forward_run wf_cfg ex_broker wf_api wf_bars_c ∧
    grid_search_run wf_cfg wf_api wf_bars_a [combo_a, combo_b] "profit_factor" =
      grid_search_run wf_cfg wf_api wf_bars_c [combo_a, combo_b] "profit_factor" := by
  have h := C4_selection_uses_test_data wf_cfg wf_api wf_bars_a wf_bars_c
    [2023] rfl (by decide)
  exact ⟨h.1 ex_broker, h.2.1 [combo_a, combo_b] "profit_factor"⟩

/-- **C4 counterexample**: two datasets with *identical* training windows
(the single 2022 bar) but different test-year bars make the grid search
report different best parameter combinations — on dataset A the best is
`min_confidence = 0.7`, on dataset B it is `min_confidence = 0.6` — so the
selection provably consumes test-window data and is not determined by
training profit factor (no training run exists to determine it). -/
theorem C4_counterexample :
    train_filter wf_bars_a 2021 2022 = train_filter wf_bars_b 2021 2022 ∧
    ((grid_search_run wf_cfg wf_api wf_bars_a [combo_a, combo_b]
        "profit_factor").1.map GridResult.params) = some combo_b ∧
    ((grid_search_run wf_cfg wf_api wf_bars_b [combo_a, combo_b]
        "profit_factor").1.map GridResult.params) = some combo_a ∧
    combo_a ≠ combo_b := by
  refine ⟨by decide, by decide, by decide, by decide⟩

/-- Accounting effect of one `_partial_close` body: the booked leg's lots
are nonnegative, bounded by the remaining lots (when those are
nonnegative), and moved one-for-one from `remaining_lots` to
`closed_lots`; the leg's net is booked into `net_pnl_usd`; `lot_size`
never changes; and the leg's net is its gross minus the slippage exit cost
and the per-lot exit commission. -/
lemma partial_close_body_spec (B : Broker) (t1 : Trade) (tm : DateTime)
    (px : ℚ) (r : ExitReason) (lots_raw : ℚ) :
    (B.partial_close_body t1 tm px r lots_raw).1.lot_size = t1.lot_size ∧
    (B.partial_close_body t1 tm px r lots_raw).1.closed_lots =
      t1.closed_lots +
        (((B.partial_close_body t1 tm px r lots_raw).2.toList.map Leg.lots).sum) ∧
    (B.partial_close_body t1 tm px r lots_raw).1.net_pnl_usd =
      t1.net_pnl_usd +
        (((B.partial_close_body t1 tm px r lots_raw).2.toList.map Leg.net).sum) ∧
    (B.partial_close_body t1 tm px r lots_raw).1.remaining_lots =
      t1.remaining_lots -
        (((B.partial_close_body t1 tm px r lots_raw).2.toList.map Leg.lots).sum) ∧
    0 ≤ (((B.partial_close_body t1 tm px r lots_raw).2.toList.map Leg.lots).sum) ∧
    (0 ≤ t1.remaining_lots →
      (((B.partial_close_body t1 tm px r lots_raw).2.toList.map Leg.lots).sum) ≤
        t1.remaining_lots) ∧
    (∀ L ∈ (B.partial_close_body t1 tm px r lots_raw).2.toList,
      L.net = L.gross - B.slippage_pips * L.lots * B.usd_per_pip_per_lot -
        B.commission_per_side_per_lot * L.lots) := by
  unfold Broker.partial_close_body
  by_cases h0 : min lots_raw t1.remaining_lots ≤ 0
  · rw [if_pos h0]
    simp
  · rw [if_neg h0]
    have hmin : min lots_raw t1.remaining_lots ≤ t1.remaining_lots :=
      min_le_right _ _
    have hpos : 0 < min lots_raw t1.remaining_lots := lt_of_not_ge h0
    dsimp only
    by_cases hclamp : t1.remaining_lots - min lots_raw t1.remaining_lots ≤ 0
    · rw [if_pos hclamp]
      have hz : t1.remaining_lots - min lots_raw t1.remaining_lots = 0 :=
        le_antisymm hclamp (by linarith)
      refine ⟨rfl, by simp, by simp [sub_sub], by simp [hz.symm], by simp [hpos.le],
        fun _ => by simpa using hmin, ?_⟩
      intro L hL
      simp at hL
      subst hL
      simp [sub_sub]
    · rw [if_neg hclamp]
      refine ⟨rfl, by simp, by simp [sub_sub], by simp, by simp [hpos.le],
        fun _ => by simpa using hmin, ?_⟩
      intro L hL
      simp at hL
      subst hL
      simp [sub_sub]

/-- Accounting effect of `_partial_close` (the flag presetting changes no
numeric field). -/
lemma partial_close_full_spec (B : Broker) (t : Trade) (tm : DateTime)
    (px : ℚ) (r : ExitReason) :
    (B.partial_close_full t tm px r).1.lot_size = t.lot_size ∧
    (B.partial_close_full t tm px r).1.closed_lots =
      t.closed_lots + (((B.partial_close_full t tm px r).2.toList.map Leg.lots).sum) ∧
    (B.partial_close_full t tm px r).1.net_pnl_usd =
      t.net_pnl_usd + (((B.partial_close_full t tm px r).2.toList.map Leg.net).sum) ∧
    (B.partial_close_full t tm px r).1.remaining_lots =
      t.remaining_lots - (((B.partial_close_full t tm px r).2.toList.map Leg.lots).sum) ∧
    0 ≤ (((B.partial_close_full t tm px r).2.toList.map Leg.lots).sum) ∧
    (0 ≤ t.remaining_lots →
      (((B.partial_close_full t tm px r).2.toList.map Leg.lots).sum) ≤
        t.remaining_lots) ∧
    (∀ L ∈ (B.partial_close_full t tm px r).2.toList,
      L.net = L.gross - B.slippage_pips * L.lots * B.usd_per_pip_per_lot -
        B.commission_per_side_per_lot * L.lots) := by
  cases r with
  | TP1 => exact partial_close_body_spec B _ tm px .TP1 _
  | TP2 => exact partial_close_body_spec B _ tm px .TP2 _
  | TP3 => exact partial_close_body_spec B _ tm px .TP3 _
  | SL => simp [Broker.partial_close_full]
  | MANUAL => simp [Broker.partial_close_full]

/-- Accounting effect of `_close_trade`. -/
lemma close_trade_full_spec (B : Broker) (t : Trade) (tm : DateTime)
    (px : ℚ) (r : ExitReason) :
    (B.close_trade_full t tm px r).1.lot_size = t.lot_size ∧
    (B.close_trade_full t tm px r).1.closed_lots =
      t.closed_lots + (((B.close_trade_full t tm px r).2.toList.map Leg.lots).sum) ∧
    (B.close_trade_full t tm px r).1.net_pnl_usd =
      t.net_pnl_usd + (((B.close_trade_full t tm px r).2.toList.map Leg.net).sum) ∧
    (B.close_trade_full t tm px r).1.remaining_lots =
      t.remaining_lots - (((B.close_trade_full t tm px r).2.toList.map Leg.lots).sum) ∧
    0 ≤ (((B.close_trade_full t tm px r).2.toList.map Leg.lots).sum) ∧
    (0 ≤ t.remaining_lots →
      (((B.close_trade_full t tm px r).2.toList.map Leg.lots).sum) ≤
        t.remaining_lots) ∧
    (∀ L ∈ (B.close_trade_full t tm px r).2.toList,
      L.net = L.gross - B.slippage_pips * L.lots * B.usd_per_pip_per_lot -
        B.commission_per_side_per_lot * L.lots) := by
  unfold Broker.close_trade_full
  split
  · simp
  · rename_i h0
    have hpos : 0 < t.remaining_lots := lt_of_not_ge h0
    refine ⟨rfl, by simp, by simp [sub_sub], by simp, by simp [hpos.le],
      fun _ => by simp, ?_⟩
    intro L hL
    simp at hL
    subst hL
    simp [sub_sub]

lemma leg_accounting_nil (B : Broker) (a : Trade) : LegAccounting B a a [] := by
  unfold LegAccounting
  simp

lemma leg_accounting_trans (B : Broker) {a b c : Trade} {ls1 ls2 : List Leg}
    (H1 : LegAccounting B a b ls1) (H2 : LegAccounting B b c ls2) :
    LegAccounting B a c (ls1 ++ ls2) := by
  obtain ⟨e1, e2, e3, e4, e5, e6, e7⟩ := H1
  obtain ⟨f1, f2, f3, f4, f5, f6, f7⟩ := H2
  refine ⟨f1.trans e1, ?_, ?_, ?_, ?_, ?_, ?_⟩
  · rw [List.map_append, List.sum_append]
    linarith
  · rw [List.map_append, List.sum_append]
    linarith
  · rw [List.map_append, List.sum_append]
    linarith
  · rw [List.map_append, List.sum_append]
    linarith
  · intro ha
    rw [List.map_append, List.sum_append]
    have hb : 0 ≤ b.remaining_lots := by
      rw [e4]
      linarith [e6 ha]
    linarith [e6 ha, f6 hb]
  · intro L hL
    rcases List.mem_append.mp hL with hL | hL
    · exact e7 L hL
    · exact f7 L hL

lemma partial_close_full_acc (B : Broker) (t : Trade) (tm : DateTime)
    (px : ℚ) (r : ExitReason) :
    LegAccounting B t (B.partial_close_full t tm px r).1
      (B.partial_close_full t tm px r).2.toList := by
  unfold LegAccounting
  exact partial_close_full_spec B t tm px r

lemma close_trade_full_acc (B : Broker) (t : Trade) (tm : DateTime)
    (px : ℚ) (r : ExitReason) :
    LegAccounting B t (B.close_trade_full t tm px r).1
      (B.close_trade_full t tm px r).2.toList := by
  unfold LegAccounting
  exact close_trade_full_spec B t tm px r

/-- `update_trade` obeys the leg accounting over the (up to three) legs it
books on one bar. -/
lemma update_trade_full_acc (B : Broker) (t : Trade) (tm : DateTime)
    (high low close : ℚ) :
    LegAccounting B t (B.update_trade_full t tm high low close).1
      (B.update_trade_full t tm high low close).2.2 := by
  unfold Broker.update_trade_full
  by_cases hcl : t.is_closed
  · rw [if_pos hcl]
    exact leg_accounting_nil B t
  · rw [if_neg hcl]
    by_cases hdir : t.direction = "BUY"
    · rw [if_pos hdir]
      by_cases hsl : low ≤ t.sl
      · rw [if_pos hsl]
        exact close_trade_full_acc B t tm t.sl .SL
      · rw [if_neg hsl]
        dsimp only
        split
        · split
          · split
            · exact leg_accounting_trans B
                (leg_accounting_trans B (partial_close_full_acc B _ _ _ _)
                  (partial_close_full_acc B _ _ _ _))
                (partial_close_full_acc B _ _ _ _)
            · exact leg_accounting_trans B
                (leg_accounting_trans B (partial_close_full_acc B _ _ _ _)
                  (partial_close_full_acc B _ _ _ _))
                (leg_accounting_nil B _)
          · split
            · exact leg_accounting_trans B
                (leg_accounting_trans B (partial_close_full_acc B _ _ _ _)
                  (leg_accounting_nil B _))
                (partial_close_full_acc B _ _ _ _)
            · exact leg_accounting_trans B
                (leg_accounting_trans B (partial_close_full_acc B _ _ _ _)
                  (leg_accounting_nil B _))
                (leg_accounting_nil B _)
        · split
          · split
            · exact leg_accounting_trans B
                (leg_accounting_trans B (leg_accounting_nil B _)
                  (partial_close_full_acc B _ _ _ _))
                (partial_close_full_acc B _ _ _ _)
            · exact leg_accounting_trans B
                (leg_accounting_trans B (leg_accounting_nil B _)
                  (partial_close_full_acc B _ _ _ _))
                (leg_accounting_nil B _)
          · split
            · exact leg_accounting_trans B
                (leg_accounting_trans B (leg_accounting_nil B _)
                  (leg_accounting_nil B _))
                (partial_close_full_acc B _ _ _ _)
            · exact leg_accounting_trans B
                (leg_accounting_trans B (leg_accounting_nil B _)
                  (leg_accounting_nil B _))
                (leg_accounting_nil B _)
    · rw [if_neg hdir]
      by_cases hsl : high ≥ t.sl
      · rw [if_pos hsl]
        exact close_trade_full_acc B t tm t.sl .SL
      · rw [if_neg hsl]
        dsimp only
        split
        · split
          · split
            · exact leg_accounting_trans B
                (leg_accounting_trans B (partial_close_full_acc B _ _ _ _)
                  (partial_close_full_acc B _ _ _ _))
                (partial_close_full_acc B _ _ _ _)
            · exact leg_accounting_trans B
                (leg_accounting_trans B (partial_close_full_acc B _ _ _ _)
                  (partial_close_full_acc B _ _ _ _))
                (leg_accounting_nil B _)
          · split
            · exact leg_accounting_trans B
                (leg_accounting_trans B (partial_close_full_acc B _ _ _ _)
                  (leg_accounting_nil B _))
                (partial_close_full_acc B _ _ _ _)
            · exact leg_accounting_trans B
                (leg_accounting_trans B (partial_close_full_acc B _ _ _ _)
                  (leg_accounting_nil B _))
                (leg_accounting_nil B _)
        · split
          · split
            · exact leg_accounting_trans B
                (leg_accounting_trans B (leg_accounting_nil B _)
                  (partial_close_full_acc B _ _ _ _))
                (partial_close_full_acc B _ _ _ _)
            · exact leg_accounting_trans B
                (leg_accounting_trans B (leg_accounting_nil B _)
                  (partial_close_full_acc B _ _ _ _))
                (leg_accounting_nil B _)
          · split
            · exact leg_accounting_trans B
                (leg_accounting_trans B (leg_accounting_nil B _)
                  (leg_accounting_nil B _))
                (partial_close_full_acc B _ _ _ _)
            · exact leg_accounting_trans B
                (leg_accounting_trans B (leg_accounting_nil B _)
                  (leg_accounting_nil B _))
                (leg_accounting_nil B _)

lemma run_bars_acc (B : Broker) (bs : List Bar) :
    ∀ t : Trade, LegAccounting B t (B.run_bars t bs).1 (B.run_bars t bs).2 := by
  induction bs with
  | nil => exact fun t => leg_accounting_nil B t
  | cons b bs ih =>
    intro t
    exact leg_accounting_trans B
      (update_trade_full_acc B t b.time b.high b.low b.close)
      (ih (B.update_trade_full t b.time b.high b.low b.close).1)

lemma run_bars_cons (B : Broker) (t : Trade) (b : Bar) (bs : List Bar) :
    B.run_bars t (b :: bs) =
      ((B.run_bars (B.update_trade_full t b.time b.high b.low b.close).1 bs).1,
        (B.update_trade_full t b.time b.high b.low b.close).2.2 ++
          (B.run_bars (B.update_trade_full t b.time b.high b.low b.close).1 bs).2) :=
  rfl

lemma run_bars_append (B : Broker) (bs1 bs2 : List Bar) :
    ∀ t : Trade, B.run_bars t (bs1 ++ bs2) =
      ((B.run_bars (B.run_bars t bs1).1 bs2).1,
        (B.run_bars t bs1).2 ++ (B.run_bars (B.run_bars t bs1).1 bs2).2) := by
  induction bs1 with
  | nil => intro t; simp [Broker.run_bars]
  | cons b bs ih =>
    intro t
    rw [List.cons_append, run_bars_cons, ih, run_bars_cons]
    simp [List.append_assoc]

/-- **C3** (partial-exit conservation,
`BrokerSimulator._partial_close` / `_close_trade`): for a trade opened via
`open_trade` with nonnegative size and then updated over any sequence of
bars, `lot_size` is preserved; `remaining_lots` always equals
`lot_size - closed_lots` and stays nonnegative; the lots of the booked exit
legs sum exactly to `closed_lots`; the legs' net P&L sums exactly to the
trade's realized `net_pnl_usd` (exact rational arithmetic, hence "to
within floating-point tolerance" in float semantics); once the closed
state (`remaining_lots <= 0`) is reached, the legs' lots sum to `lot_size`
exactly; and `remaining_lots` never increases along the run. -/
theorem C3_partial_exit_conservation (B : Broker) (direction : String)
    (entry_time : DateTime)
    (entry_price lot_size sl tp1 tp2 tp3 tp1_percent tp2_percent tp3_percent
      confidence : ℚ) (reason : String) (bs : List Bar) (hlot : 0 ≤ lot_size) :
    (B.run_bars (B.open_trade direction entry_time entry_price lot_size sl tp1
        tp2 tp3 tp1_percent tp2_percent tp3_percent confidence reason)
        bs).1.lot_size = lot_size ∧
    (B.run_bars (B.open_trade direction entry_time entry_price lot_size sl tp1
        tp2 tp3 tp1_percent tp2_percent tp3_percent confidence reason)
        bs).1.remaining_lots =
      lot_size - (B.run_bars (B.open_trade direction entry_time entry_price
        lot_size sl tp1 tp2 tp3 tp1_percent tp2_percent tp3_percent confidence
        reason) bs).1.closed_lots ∧
    0 ≤ (B.run_bars (B.open_trade direction entry_time entry_price lot_size sl
        tp1 tp2 tp3 tp1_percent tp2_percent tp3_percent confidence reason)
        bs).1.remaining_lots ∧
    ((B.run_bars (B.open_trade direction entry_time entry_price lot_size sl tp1
        tp2 tp3 tp1_percent tp2_percent tp3_percent confidence reason)
        bs).2.map Leg.lots).sum =
      (B.run_bars (B.open_trade direction entry_time entry_price lot_size sl
        tp1 tp2 tp3 tp1_percent tp2_percent tp3_percent confidence reason)
        bs).1.closed_lots ∧
    ((B.run_bars (B.open_trade direction entry_time entry_price lot_size sl tp1
        tp2 tp3 tp1_percent tp2_percent tp3_percent confidence reason)
        bs).2.map Leg.net).sum =
      (B.run_bars (B.open_trade direction entry_time entry_price lot_size sl
        tp1 tp2 tp3 tp1_percent tp2_percent tp3_percent confidence reason)
        bs).1.net_pnl_usd ∧
    ((B.run_bars (B.open_trade direction entry_time entry_price lot_size sl tp1
        tp2 tp3 tp1_percent tp2_percent tp3_percent confidence reason)
        bs).1.is_closed = true →
      ((B.run_bars (B.open_trade direction entry_time entry_price lot_size sl
        tp1 tp2 tp3 tp1_percent tp2_percent tp3_percent confidence reason)
        bs).2.map Leg.lots).sum = lot_size) ∧
    (∀ bs1 bs2 : List Bar, bs = bs1 ++ bs2 →
      (B.run_bars (B.open_trade direction entry_time entry_price lot_size sl
        tp1 tp2 tp3 tp1_percent tp2_percent tp3_percent confidence reason)
        (bs1 ++ bs2)).1.remaining_lots ≤
      (B.run_bars (B.open_trade direction entry_time entry_price lot_size sl
        tp1 tp2 tp3 tp1_percent tp2_percent tp3_percent confidence reason)
        bs1).1.remaining_lots) := by
  obtain ⟨e1, e2, e3, e4, e5, e6, e7⟩ := run_bars_acc B bs
    (B.open_trade direction entry_time entry_price lot_size sl tp1 tp2 tp3
      tp1_percent tp2_percent tp3_percent confidence reason)
  have hrem0 : (B.open_trade direction entry_time entry_price lot_size sl tp1
      tp2 tp3 tp1_percent tp2_percent tp3_percent confidence reason).remaining_lots =
      lot_size := rfl
  have hcl0 : (B.open_trade direction entry_time entry_price lot_size sl tp1
      tp2 tp3 tp1_percent tp2_percent tp3_percent confidence reason).closed_lots =
      0 := rfl
  have hnet0 : (B.open_trade direction entry_time entry_price lot_size sl tp1
      tp2 tp3 tp1_percent tp2_percent tp3_percent confidence reason).net_pnl_usd =
      0 := rfl
  have hls0 : (B.open_trade direction entry_time entry_price lot_size sl tp1
      tp2 tp3 tp1_percent tp2_percent tp3_percent confidence reason).lot_size =
      lot_size := rfl
  rw [hls0] at e1
  rw [hcl0] at e2
  rw [hnet0] at e3
  rw [hrem0] at e4 e6
  have hbound := e6 hlot
  refine ⟨e1, by linarith, by linarith, by linarith, by linarith, ?_, ?_⟩
  · intro hclosed
    unfold Trade.is_closed at hclosed
    have : (B.run_bars (B.open_trade direction entry_time entry_price lot_size
        sl tp1 tp2 tp3 tp1_percent tp2_percent tp3_percent confidence reason)
        bs).1.remaining_lots ≤ 0 := by
      simpa using hclosed
    linarith
  · intro bs1 bs2 _
    rw [run_bars_append]
    obtain ⟨f1, f2, f3, f4, f5, f6, f7⟩ := run_bars_acc B bs2
      (B.run_bars (B.open_trade direction entry_time entry_price lot_size sl
        tp1 tp2 tp3 tp1_percent tp2_percent tp3_percent confidence reason)
        bs1).1
    linarith

/-- Witness for C3: a 50/30/20 BUY trade that hits TP3, TP2 and TP1 on one
bar; the three legs' lots sum exactly to the lot size and the legs' nets
to the realized net P&L. -/
theorem C3_partial_exit_conservation_witness :
    ((ex_broker.run_bars (ex_broker.open_trade "BUY" ⟨2023, 0⟩ 1 1 (9/10)
        (11/10) (12/10) (13/10) (1/2) (3/10) (1/5) 1 "w")
        [⟨⟨2023, 1⟩, 1, 14/10, 99/100, 13/10, 0⟩]).2.map Leg.lots).sum = 1 ∧
    ((ex_broker.run_bars (ex_broker.open_trade "BUY" ⟨2023, 0⟩ 1 1 (9/10)
        (11/10) (12/10) (13/10) (1/2) (3/10) (1/5) 1 "w")
        [⟨⟨2023, 1⟩, 1, 14/10, 99/100, 13/10, 0⟩]).2.map Leg.net).sum =
      (ex_broker.run_bars (ex_broker.open_trade "BUY" ⟨2023, 0⟩ 1 1 (9/10)
        (11/10) (12/10) (13/10) (1/2) (3/10) (1/5) 1 "w")
        [⟨⟨2023, 1⟩, 1, 14/10, 99/100, 13/10, 0⟩]).1.net_pnl_usd := by
  have h := C3_partial_exit_conservation ex_broker "BUY" ⟨2023, 0⟩ 1 1 (9/10)
    (11/10) (12/10) (13/10) (1/2) (3/10) (1/5) 1 "w"
    [⟨⟨2023, 1⟩, 1, 14/10, 99/100, 13/10, 0⟩] (by norm_num)
  exact ⟨h.2.2.2.2.2.1 (by decide), h.2.2.2.2.1⟩

/-- **C5 (amended)** (`BrokerSimulator` cost model): entry and exit fills
are adjusted by the *slippage only* (no half-spread in any fill price); a
spread-plus-slippage entry cost and the entry-side per-lot commission are
*recorded* in the trade's `entry_cost_usd` and `commission_usd` fields;
each exit leg is charged a slippage-based exit cost plus a per-lot exit
commission, both subtracted from that leg's net P&L; and the position's
realized `net_pnl_usd` is exactly the sum of the exit legs' nets — neither
the entry cost nor the entry commission ever enters it. -/
theorem C5_cost_model (B : Broker) (direction : String) (entry_time : DateTime)
    (entry_price lot_size sl tp1 tp2 tp3 tp1_percent tp2_percent tp3_percent
      confidence : ℚ) (reason : String) (bs : List Bar) :
    (B.open_trade direction entry_time entry_price lot_size sl tp1 tp2 tp3
        tp1_percent tp2_percent tp3_percent confidence reason).entry_price =
      (if direction = "BUY" then entry_price + B.slippage_pips * B.pip_value
       else entry_price - B.slippage_pips * B.pip_value) ∧
    (B.open_trade direction entry_time entry_price lot_size sl tp1 tp2 tp3
        tp1_percent tp2_percent tp3_percent confidence reason).entry_cost_usd =
      (B.spread_pips + B.slippage_pips) * lot_size * B.usd_per_pip_per_lot ∧
    (B.open_trade direction entry_time entry_price lot_size sl tp1 tp2 tp3
        tp1_percent tp2_percent tp3_percent confidence reason).commission_usd =
      B.commission_per_side_per_lot * lot_size ∧
    (B.open_trade direction entry_time entry_price lot_size sl tp1 tp2 tp3
        tp1_percent tp2_percent tp3_percent confidence reason).net_pnl_usd = 0 ∧
    (B.run_bars (B.open_trade direction entry_time entry_price lot_size sl tp1
        tp2 tp3 tp1_percent tp2_percent tp3_percent confidence reason)
        bs).1.net_pnl_usd =
      ((B.run_bars (B.open_trade direction entry_time entry_price lot_size sl
        tp1 tp2 tp3 tp1_percent tp2_percent tp3_percent confidence reason)
        bs).2.map Leg.net).sum ∧
    (∀ L ∈ (B.run_bars (B.open_trade direction entry_time entry_price lot_size
        sl tp1 tp2 tp3 tp1_percent tp2_percent tp3_percent confidence reason)
        bs).2,
      L.net = L.gross - B.slippage_pips * L.lots * B.usd_per_pip_per_lot -
        B.commission_per_side_per_lot * L.lots) ∧
    (∀ (t' : Trade) (tm : DateTime) (px : ℚ) (r : ExitReason),
      0 < t'.remaining_lots →
      (B.close_trade_full t' tm px r).1.exit_price =
        some (if t'.direction = "BUY" then px - B.slippage_pips * B.pip_value
              else px + B.slippage_pips * B.pip_value)) := by
  obtain ⟨e1, e2, e3, e4, e5, e6, e7⟩ := run_bars_acc B bs
    (B.open_trade direction entry_time entry_price lot_size sl tp1 tp2 tp3
      tp1_percent tp2_percent tp3_percent confidence reason)
  have hnet0 : (B.open_trade direction entry_time entry_price lot_size sl tp1
      tp2 tp3 tp1_percent tp2_percent tp3_percent confidence reason).net_pnl_usd =
      0 := rfl
  rw [hnet0] at e3
  refine ⟨by unfold Broker.open_trade; split <;> simp, rfl, rfl, rfl,
    by rw [e3]; ring, e7, ?_⟩
  intro t' tm px r hrem
  unfold Broker.close_trade_full
  rw [if_neg (not_le.mpr hrem)]

/-- Witness for C5 at a concrete spread-2 / slippage-1 / commission-4
broker and a one-bar TP1 exit. -/
theorem C5_cost_model_witness :
    ((⟨2, 1, 4, 10, 1/10000⟩ : Broker).open_trade "BUY" ⟨2023, 0⟩ (11/10) 1
      (9/10) (11/10 + 2/10000) 2 3 1 0 0 1 "w").entry_price =
      11/10 + 1 * (1/10000) ∧
    (((⟨2, 1, 4, 10, 1/10000⟩ : Broker).run_bars
      ((⟨2, 1, 4, 10, 1/10000⟩ : Broker).open_trade "BUY" ⟨2023, 0⟩ (11/10) 1
        (9/10) (11/10 + 2/10000) 2 3 1 0 0 1 "w")
      [⟨⟨2023, 1⟩, 11/10, 12/10, 1, 11/10, 0⟩]).1.net_pnl_usd =
      (((⟨2, 1, 4, 10, 1/10000⟩ : Broker).run_bars
        ((⟨2, 1, 4, 10, 1/10000⟩ : Broker).open_trade "BUY" ⟨2023, 0⟩ (11/10) 1
          (9/10) (11/10 + 2/10000) 2 3 1 0 0 1 "w")
        [⟨⟨2023, 1⟩, 11/10, 12/10, 1, 11/10, 0⟩]).2.map Leg.net).sum) := by
  have h := C5_cost_model (⟨2, 1, 4, 10, 1/10000⟩ : Broker) "BUY" ⟨2023, 0⟩
    (11/10) 1 (9/10) (11/10 + 2/10000) 2 3 1 0 0 1 "w"
    [⟨⟨2023, 1⟩, 11/10, 12/10, 1, 11/10, 0⟩]
  refine ⟨?_, h.2.2.2.2.1⟩
  rw [h.1]
  norm_num

/-- **C5 counterexample**: with spread 2 pips and slippage 1 pip, the entry
fill is adjusted by the slippage alone — `1.10010`, not the
`1.10020 = 1.10000 + (2/2 + 1) pips` the half-spread-plus-slippage claim
requires; and with only a 4-USD-per-lot commission configured, a
round-trip at the entry price records `commission_usd = 8` (entry + exit
side) yet books `net_pnl_usd = -4`: the entry-side commission is absent
from the realized net P&L. -/
theorem C5_counterexample :
    ((⟨2, 1, 4, 10, 1/10000⟩ : Broker).open_trade "BUY" ⟨2023, 0⟩ (11/10) 1
      (9/10) (12/10) (13/10) (14/10) (1/2) (3/10) (1/5) 1 "w").entry_price =
      110010/100000 ∧
    ((⟨2, 1, 4, 10, 1/10000⟩ : Broker).open_trade "BUY" ⟨2023, 0⟩ (11/10) 1
      (9/10) (12/10) (13/10) (14/10) (1/2) (3/10) (1/5) 1 "w").entry_price ≠
      11/10 + (2/2 + 1) * (1/10000) ∧
    ((⟨0, 0, 4, 10, 1/10000⟩ : Broker).close_trade
      ((⟨0, 0, 4, 10, 1/10000⟩ : Broker).open_trade "BUY" ⟨2023, 0⟩ 1 1 (9/10)
        (11/10) (12/10) (13/10) (1/2) (3/10) (1/5) 1 "w")
      ⟨2023, 1⟩ 1 ExitReason.MANUAL).commission_usd = 8 ∧
    ((⟨0, 0, 4, 10, 1/10000⟩ : Broker).close_trade
      ((⟨0, 0, 4, 10, 1/10000⟩ : Broker).open_trade "BUY" ⟨2023, 0⟩ 1 1 (9/10)
        (11/10) (12/10) (13/10) (1/2) (3/10) (1/5) 1 "w")
      ⟨2023, 1⟩ 1 ExitReason.MANUAL).net_pnl_usd = -4 := by
  refine ⟨by decide, by decide, by decide, by decide⟩

lemma partial_close_body_tp1_hit (B : Broker) (t1 : Trade) (tm : DateTime)
    (px : ℚ) (r : ExitReason) (lots_raw : ℚ) :
    (B.partial_close_body t1 tm px r lots_raw).1.tp1_hit = t1.tp1_hit := by
  unfold Broker.partial_close_body
  by_cases h0 : min lots_raw t1.remaining_lots ≤ 0
  · rw [if_pos h0]
  · rw [if_neg h0]
    dsimp only
    split <;> rfl

lemma partial_close_body_tp1 (B : Broker) (t1 : Trade) (tm : DateTime)
    (px : ℚ) (r : ExitReason) (lots_raw : ℚ) :
    (B.partial_close_body t1 tm px r lots_raw).1.tp1 = t1.tp1 := by
  unfold Broker.partial_close_body
  by_cases h0 : min lots_raw t1.remaining_lots ≤ 0
  · rw [if_pos h0]
  · rw [if_neg h0]
    dsimp only
    split <;> rfl

lemma pc_tp3_tp1_hit (B : Broker) (t : Trade) (tm : DateTime) (px : ℚ) :
    (B.partial_close_full t tm px .TP3).1.tp1_hit = t.tp1_hit := by
  unfold Broker.partial_close_full
  rw [partial_close_body_tp1_hit]

lemma pc_tp2_tp1_hit (B : Broker) (t : Trade) (tm : DateTime) (px : ℚ) :
    (B.partial_close_full t tm px .TP2).1.tp1_hit = t.tp1_hit := by
  unfold Broker.partial_close_full
  rw [partial_close_body_tp1_hit]

lemma pc_tp3_tp1 (B : Broker) (t : Trade) (tm : DateTime) (px : ℚ) :
    (B.partial_close_full t tm px .TP3).1.tp1 = t.tp1 := by
  unfold Broker.partial_close_full
  rw [partial_close_body_tp1]

lemma pc_tp2_tp1 (B : Broker) (t : Trade) (tm : DateTime) (px : ℚ) :
    (B.partial_close_full t tm px .TP2).1.tp1 = t.tp1 := by
  unfold Broker.partial_close_full
  rw [partial_close_body_tp1]

/-- On a BUY bar that misses the stop loss but crosses TP1, the per-bar
update always records the TP1 hit and reports a state change — whatever
the broker's cost configuration and whatever happened with TP3/TP2. -/
lemma update_trade_tp1_only (B : Broker) (t : Trade) (tm : DateTime)
    (high low close : ℚ)
    (hopen : ¬ t.remaining_lots ≤ 0) (hdir : t.direction = "BUY")
    (hsl : ¬ low ≤ t.sl) (h1f : t.tp1_hit = false) (h1 : t.tp1 ≤ high) :
    (B.update_trade_full t tm high low close).1.tp1_hit = true ∧
    (B.update_trade_full t tm high low close).2.1 = true := by
  unfold Broker.update_trade_full
  rw [if_neg (by simp [Trade.is_closed, hopen]), if_pos hdir, if_neg hsl]
  dsimp only
  split
  · split
    · rw [if_pos ⟨by rw [pc_tp2_tp1_hit, pc_tp3_tp1_hit]; exact h1f,
        by rw [pc_tp2_tp1, pc_tp3_tp1]; exact h1⟩]
      refine ⟨?_, rfl⟩
      unfold Broker.partial_close_full
      rw [partial_close_body_tp1_hit]
    · rw [if_pos ⟨by rw [pc_tp3_tp1_hit]; exact h1f,
        by rw [pc_tp3_tp1]; exact h1⟩]
      refine ⟨?_, rfl⟩
      unfold Broker.partial_close_full
      rw [partial_close_body_tp1_hit]
  · split
    · rw [if_pos ⟨by rw [pc_tp2_tp1_hit]; exact h1f,
        by rw [pc_tp2_tp1]; exact h1⟩]
      refine ⟨?_, rfl⟩
      unfold Broker.partial_close_full
      rw [partial_close_body_tp1_hit]
    · rw [if_pos ⟨h1f, h1⟩]
      refine ⟨?_, rfl⟩
      unfold Broker.partial_close_full
      rw [partial_close_body_tp1_hit]

/-- **C8 counterexample** (`BrokerSimulator`): with the default cost
configuration (spread 1.5, slippage 0.5, commission 3.5, 10 USD/pip,
pip 0.0001), a just-opened Scenario A BUY position (entry 1.10000,
SL 1.09950, TP1 1.10070) fills TP1 on its very entry bar
(open 1.10000, high 1.10080, low 1.09980, close 1.10020) — even though
the bar's open price lies strictly between SL and TP1, so the claimed
conservative (open-price-only) evaluation would have left the position
open.  `BrokerSimulator` offers no policy under which that happens: its
SL/TP check is handed only the bar's high/low/close. -/
theorem C8_counterexample :
    ((⟨3/2, 1/2, 7/2, 10, 1/10000⟩ : Broker).update_trade_full
      ((⟨3/2, 1/2, 7/2, 10, 1/10000⟩ : Broker).open_trade "BUY" ⟨2023, 0⟩
        (110000/100000) 1 (109950/100000) (110070/100000) (110140/100000)
        (110210/100000) (1/2) (3/10) (1/5) 1 "w")
      ⟨2023, 1⟩ (110080/100000) (109980/100000) (110020/100000)).1.tp1_hit =
      true ∧
    ((⟨3/2, 1/2, 7/2, 10, 1/10000⟩ : Broker).update_trade_full
      ((⟨3/2, 1/2, 7/2, 10, 1/10000⟩ : Broker).open_trade "BUY" ⟨2023, 0⟩
        (110000/100000) 1 (109950/100000) (110070/100000) (110140/100000)
        (110210/100000) (1/2) (3/10) (1/5) 1 "w")
      ⟨2023, 1⟩ (110080/100000) (109980/100000) (110020/100000)).2.1 = true ∧
    ((⟨3/2, 1/2, 7/2, 10, 1/10000⟩ : Broker).open_trade "BUY" ⟨2023, 0⟩
      (110000/100000) 1 (109950/100000) (110070/100000) (110140/100000)
      (110210/100000) (1/2) (3/10) (1/5) 1 "w").sl < 110000/100000 ∧
    (110000/100000 : ℚ) <
      ((⟨3/2, 1/2, 7/2, 10, 1/10000⟩ : Broker).open_trade "BUY" ⟨2023, 0⟩
        (110000/100000) 1 (109950/100000) (110070/100000) (110140/100000)
        (110210/100000) (1/2) (3/10) (1/5) 1 "w").tp1 := by
  refine ⟨by decide, by decide, by decide, by decide⟩

/-- **C8 (amended)**: the configurable exit-semantics policy lives in the
event-driven `BacktestBroker` (`tests/backtest_engine/broker.py`), chosen
up front in its constructor as `OPEN_ONLY` (conservative: only the bar's
open price, carried by the tick's bid/ask, is checked) or `OHLC_INTRABAR`
(optimistic: the bar's high/low range is checked).  On Scenario A's bar,
the optimistic policy fills TP1 on that same bar while the conservative
policy reports no state change and leaves the position open.  The cited
`BrokerSimulator`, by contrast, has no such policy: under *every* cost
configuration its update fills TP1 on Scenario A's bar. -/
theorem C8_exit_semantics_policy :
    (∀ s l c u pv : ℚ,
      ((⟨s, l, c, u, pv⟩ : Broker).update_trade_full
        ((⟨s, l, c, u, pv⟩ : Broker).open_trade "BUY" ⟨2023, 0⟩ (110000/100000)
          1 (109950/100000) (110070/100000) (110140/100000) (110210/100000)
          (1/2) (3/10) (1/5) 1 "w")
        ⟨2023, 1⟩ (110080/100000) (109980/100000) (110020/100000)).1.tp1_hit =
        true) ∧
    ((⟨.OHLC_INTRABAR, .PARTIAL_TPS, 10⟩ : EventEngine.BacktestBroker).check_sl_tp_on_tick
      ⟨1, EventEngine.Trade.make ⟨2023, 1⟩ "BUY" (110000/100000)
        (109950/100000) (110070/100000) (110140/100000) (110210/100000)
        (1/10000) 0 0 0 1, 1, []⟩
      ⟨⟨2023, 1⟩, 110000/100000, 110000/100000, 110080/100000, 109980/100000,
        0, true⟩).1 = true ∧
    ((⟨.OHLC_INTRABAR, .PARTIAL_TPS, 10⟩ : EventEngine.BacktestBroker).check_sl_tp_on_tick
      ⟨1, EventEngine.Trade.make ⟨2023, 1⟩ "BUY" (110000/100000)
        (109950/100000) (110070/100000) (110140/100000) (110210/100000)
        (1/10000) 0 0 0 1, 1, []⟩
      ⟨⟨2023, 1⟩, 110000/100000, 110000/100000, 110080/100000, 109980/100000,
        0, true⟩).2.tp_levels_hit = [1] ∧
    ((⟨.OPEN_ONLY, .PARTIAL_TPS, 10⟩ : EventEngine.BacktestBroker).check_sl_tp_on_tick
      ⟨1, EventEngine.Trade.make ⟨2023, 1⟩ "BUY" (110000/100000)
        (109950/100000) (110070/100000) (110140/100000) (110210/100000)
        (1/10000) 0 0 0 1, 1, []⟩
      ⟨⟨2023, 1⟩, 110000/100000, 110000/100000, 110080/100000, 109980/100000,
        0, true⟩) =
      (false,
        ⟨1, EventEngine.Trade.make ⟨2023, 1⟩ "BUY" (110000/100000)
          (109950/100000) (110070/100000) (110140/100000) (110210/100000)
          (1/10000) 0 0 0 1, 1, []⟩) := by
  refine ⟨?_, by decide, by decide, by decide⟩
  intro s l c u pv
  refine (update_trade_tp1_only _ _ _ _ _ _ ?_ rfl ?_ rfl ?_).1 <;>
    norm_num [Broker.open_trade]

end Volarix4
